import Mathlib

/-!
Verification of the pre-lease-server specification against a shallow
embedding of its JavaScript source.

The embedding translates the relevant modules:
* `src/utils/logs.js` (audit-delta helper `buildUpdateValues`),
* `src/models/token.js` (`calculateExpiryDate`, `verifyRefreshToken`,
  `revokeToken`),
* `middleware/auth.js` (`checkPermission`, `checkAnyPermission`,
  `checkAllPermissions`),
* `src/controllers/property.js` (`createProperty`, `updateProperty`,
  the Sales-assignment balancer) and `src/controllers/admin.js`
  (`assignProperty`),
* the login refresh-token storage step shared by `login` and `verifyOtp`.

JavaScript objects are modelled as association lists of string keys and
primitive values; Sequelize tables are lists of rows; `sequelize.transaction`
with automatic rollback on a thrown error is modelled by `Except`-style
state passing, where an error result leaves the caller's datastore value
untouched.
-/

namespace PreLease

/-- JavaScript primitive values as they occur in the request/record objects
handled by the controllers.  `vUndefined` is JavaScript `undefined` (an absent
property), `vNull` is `null`.  Numbers are modelled as integers; the
controllers under verification only compare them with `!==` or truthiness.
Array-valued request entries (`amenityIds`, `certifications.others`) are
destructured out of the body by the controllers before any generic object
iteration, and are therefore modelled as typed request fields instead. -/
inductive Value where
  | vUndefined : Value
  | vNull : Value
  | vBool : Bool → Value
  | vNum : Int → Value
  | vStr : String → Value
deriving DecidableEq, Repr

/-- A JavaScript object: ordered association list of key/value pairs. -/
abbrev Obj := List (String × Value)

/-- Property read `o[k]`: the first binding of `k`, `undefined` if absent. -/
def getField (o : Obj) (k : String) : Value :=
  (o.lookup k).getD .vUndefined

/-- JavaScript truthiness of a modelled value (`undefined`, `null`, `false`,
`0` and `""` are falsy, everything else truthy). -/
def truthy : Value → Bool
  | .vUndefined => false
  | .vNull => false
  | .vBool b => b
  | .vNum n => n != 0
  | .vStr s => s ≠ ""

/-- JavaScript `a || b`. -/
def jsOr (a b : Value) : Value :=
  if truthy a then a else b

/-!
## Audit Recorder delta helper

`buildUpdateValues` from `src/utils/logs.js` (lines 137–150):

```js
const buildUpdateValues = (oldRecord, updateData) => {
  const oldValues = {};
  const newValues = {};
  Object.keys(updateData).forEach((field) => {
    if (oldRecord[field] !== updateData[field]) {
      oldValues[field] = oldRecord[field];
      newValues[field] = updateData[field];
    }
  });
  return { oldValues, newValues };
};
```
-/

/-- `buildUpdateValues oldRecord updateData` iterates over the keys of the
patch and collects, for each key whose old and new values differ under
strict inequality, the old value into the first component and the patch
value into the second. -/
def buildUpdateValues (oldRecord updateData : Obj) : Obj × Obj :=
  (updateData.map Prod.fst).foldl
    (fun acc field =>
      if getField oldRecord field ≠ getField updateData field then
        (acc.1 ++ [(field, getField oldRecord field)],
         acc.2 ++ [(field, getField updateData field)])
      else acc)
    ([], [])

/-- The list of patch keys whose value differs from the old record. -/
def changedKeys (oldRecord updateData : Obj) : List String :=
  (updateData.map Prod.fst).filter
    (fun field => getField oldRecord field ≠ getField updateData field)

theorem buildUpdateValues_foldl_general (oldRecord updateData : Obj)
    (ks : List String) (a b : Obj) :
    ks.foldl
      (fun acc field =>
        if getField oldRecord field ≠ getField updateData field then
          (acc.1 ++ [(field, getField oldRecord field)],
           acc.2 ++ [(field, getField updateData field)])
        else acc)
      (a, b) =
      (a ++ (ks.filter
          (fun field => getField oldRecord field ≠ getField updateData field)).map
          (fun field => (field, getField oldRecord field)),
       b ++ (ks.filter
          (fun field => getField oldRecord field ≠ getField updateData field)).map
          (fun field => (field, getField updateData field))) := by
  induction ks generalizing a b with
  | nil => simp
  | cons k ks ih =>
    by_cases h : getField oldRecord k ≠ getField updateData k
    · simp only [List.foldl_cons, if_pos h, ih, List.filter_cons,
        decide_eq_true h, List.map_cons, List.append_assoc, List.cons_append,
        List.nil_append]
      simp
    · simp only [List.foldl_cons, if_neg h, ih, List.filter_cons]
      simp only [ne_eq, Decidable.not_not] at h
      simp [h]

theorem buildUpdateValues_eq (oldRecord updateData : Obj) :
    buildUpdateValues oldRecord updateData =
      ((changedKeys oldRecord updateData).map
        (fun field => (field, getField oldRecord field)),
       (changedKeys oldRecord updateData).map
        (fun field => (field, getField updateData field))) := by
  unfold buildUpdateValues changedKeys
  rw [buildUpdateValues_foldl_general]
  simp

theorem mem_changedKeys (oldRecord updateData : Obj) (k : String) :
    k ∈ changedKeys oldRecord updateData ↔
      k ∈ updateData.map Prod.fst ∧
        getField oldRecord k ≠ getField updateData k := by
  simp [changedKeys]

/-- C6: the common key set of `oldValues`/`newValues` is exactly the patch
keys whose value changed under strict inequality; the collected values are
the old-record value and the patch value respectively; a key whose value is
unchanged is absent from both outputs. -/
theorem buildUpdateValues_spec (oldRecord updateData : Obj) (k : String) :
    ((∃ v, (k, v) ∈ (buildUpdateValues oldRecord updateData).1) ↔
        (k ∈ updateData.map Prod.fst ∧
          getField oldRecord k ≠ getField updateData k)) ∧
    ((∃ v, (k, v) ∈ (buildUpdateValues oldRecord updateData).2) ↔
        (k ∈ updateData.map Prod.fst ∧
          getField oldRecord k ≠ getField updateData k)) ∧
    (∀ v, (k, v) ∈ (buildUpdateValues oldRecord updateData).1 →
        v = getField oldRecord k) ∧
    (∀ v, (k, v) ∈ (buildUpdateValues oldRecord updateData).2 →
        v = getField updateData k) := by
  rw [buildUpdateValues_eq]
  refine ⟨?_, ?_, ?_, ?_⟩
  · constructor
    · rintro ⟨v, hv⟩
      simp only [List.mem_map, Prod.mk.injEq] at hv
      obtain ⟨k', hk', rfl, -⟩ := hv
      exact (mem_changedKeys _ _ _).mp hk'
    · intro h
      exact ⟨getField oldRecord k,
        List.mem_map.mpr ⟨k, (mem_changedKeys _ _ _).mpr h, rfl⟩⟩
  · constructor
    · rintro ⟨v, hv⟩
      simp only [List.mem_map, Prod.mk.injEq] at hv
      obtain ⟨k', hk', rfl, -⟩ := hv
      exact (mem_changedKeys _ _ _).mp hk'
    · intro h
      exact ⟨getField updateData k,
        List.mem_map.mpr ⟨k, (mem_changedKeys _ _ _).mpr h, rfl⟩⟩
  · intro v hv
    simp only [List.mem_map, Prod.mk.injEq] at hv
    obtain ⟨k', -, rfl, hv⟩ := hv
    exact hv.symm
  · intro v hv
    simp only [List.mem_map, Prod.mk.injEq] at hv
    obtain ⟨k', -, rfl, hv⟩ := hv
    exact hv.symm

/-!
## Token Manager

From `src/models/token.js`.  Times are integers (milliseconds since epoch,
the unit of JavaScript `Date.getTime()`).
-/

/-- Decimal value of a digit string, as computed by `parseInt` on a string
matched by `\d+`. -/
def digitsToNat (ds : List Char) : Nat :=
  ds.foldl (fun a c => a * 10 + (c.toNat - '0'.toNat)) 0

/-- The regular expression `^(\d+)([dhms])$` from `calculateExpiryDate`:
returns the captured integer and unit character when the whole string is one
or more digits followed by a unit in `{d,h,m,s}`, and `none` otherwise. -/
def expiryRegexMatch (s : String) : Option (Nat × Char) :=
  match s.data.getLast? with
  | none => none
  | some u =>
    let ds := s.data.dropLast
    if !ds.isEmpty && ds.all Char.isDigit &&
        (u == 'd' || u == 'h' || u == 'm' || u == 's') then
      some (digitsToNat ds, u)
    else
      none

/-- `Token.calculateExpiryDate` (token.js lines 115–140): parses a duration
string such as `"30d"` and returns `now` advanced by the parsed amount, or
a descriptive error when the string does not match the format. -/
def calculateExpiryDate (now : Int) (expiryString : String) : Except String Int :=
  match expiryRegexMatch expiryString with
  | none => .error "Invalid expiry format. Use format like: 30d, 24h, 60m, 3600s"
  | some (value, unit) =>
    if unit = 'd' then .ok (now + value * (24 * 60 * 60 * 1000))
    else if unit = 'h' then .ok (now + value * (60 * 60 * 1000))
    else if unit = 'm' then .ok (now + value * (60 * 1000))
    else if unit = 's' then .ok (now + value * 1000)
    else .error "Invalid time unit. Use: d (days), h (hours), m (minutes), s (seconds)"

/-- Milliseconds per duration unit, as used by the unit switch. -/
def unitMillis (u : Char) : Nat :=
  if u = 'd' then 24 * 60 * 60 * 1000
  else if u = 'h' then 60 * 60 * 1000
  else if u = 'm' then 60 * 1000
  else if u = 's' then 1000
  else 0

/-- C8: for every duration string consisting of a nonempty decimal digit
sequence followed by a unit in `{d,h,m,s}`, `calculateExpiryDate` returns
`now` plus exactly that many days, hours, minutes or seconds; for every
string not of this form it returns the descriptive format error and never a
default value. -/
theorem calculateExpiryDate_spec :
    (∀ (now : Int) (ds : List Char) (u : Char), ds ≠ [] →
      (∀ c ∈ ds, c.isDigit) → (u = 'd' ∨ u = 'h' ∨ u = 'm' ∨ u = 's') →
      calculateExpiryDate now (String.mk (ds ++ [u])) =
        .ok (now + digitsToNat ds * unitMillis u)) ∧
    (∀ (now : Int) (s : String),
      (¬ ∃ (ds : List Char) (u : Char), ds ≠ [] ∧ (∀ c ∈ ds, c.isDigit) ∧
        (u = 'd' ∨ u = 'h' ∨ u = 'm' ∨ u = 's') ∧ s.data = ds ++ [u]) →
      calculateExpiryDate now s =
        .error "Invalid expiry format. Use format like: 30d, 24h, 60m, 3600s") := by
  constructor
  · intro now ds u hne hdig hu
    have hmatch : expiryRegexMatch (String.mk (ds ++ [u])) =
        some (digitsToNat ds, u) := by
      unfold expiryRegexMatch
      simp only [List.getLast?_concat, List.dropLast_concat]
      have h1 : ds.isEmpty = false := by
        cases ds with
        | nil => exact absurd rfl hne
        | cons a as => rfl
      have h2 : ds.all Char.isDigit = true := List.all_eq_true.mpr
        (fun c hc => hdig c hc)
      have h3 : (u == 'd' || u == 'h' || u == 'm' || u == 's') = true := by
        rcases hu with rfl | rfl | rfl | rfl <;> rfl
      simp [h1, h2, h3]
    unfold calculateExpiryDate
    rw [hmatch]
    rcases hu with rfl | rfl | rfl | rfl <;> simp [unitMillis]
  · intro now s hnot
    have hmatch : expiryRegexMatch s = none := by
      cases hlast : s.data.getLast? with
      | none => simp only [expiryRegexMatch, hlast]
      | some u =>
        have hsne : s.data ≠ [] := by
          intro he; rw [he] at hlast; simp at hlast
        have hu : s.data.getLast hsne = u := by
          have := List.getLast?_eq_getLast s.data hsne
          rw [hlast] at this
          exact (Option.some.injEq _ _ ▸ this).symm
        have hdecomp : s.data.dropLast ++ [u] = s.data := by
          rw [← hu]; exact List.dropLast_append_getLast hsne
        simp only [expiryRegexMatch, hlast]
        by_cases hcond : (!s.data.dropLast.isEmpty &&
            s.data.dropLast.all Char.isDigit &&
            (u == 'd' || u == 'h' || u == 'm' || u == 's')) = true
        · exfalso
          apply hnot
          refine ⟨s.data.dropLast, u, ?_, ?_, ?_, hdecomp.symm⟩
          · simp only [Bool.and_eq_true, Bool.not_eq_true'] at hcond
            intro he
            rw [he] at hcond
            simp at hcond
          · intro c hc
            simp only [Bool.and_eq_true] at hcond
            exact List.all_eq_true.mp hcond.1.2 c hc
          · simp only [Bool.and_eq_true, Bool.or_eq_true, beq_iff_eq] at hcond
            tauto
        · simp [hcond]
    unfold calculateExpiryDate
    rw [hmatch]

/-- Witness for `calculateExpiryDate_spec`: `"30d"` yields `now` plus thirty
days of milliseconds and `"30x"` is rejected with the format error. -/
theorem calculateExpiryDate_spec_witness :
    calculateExpiryDate 0 (String.mk (['3', '0'] ++ ['d'])) =
      .ok (0 + digitsToNat ['3', '0'] * unitMillis 'd') ∧
    calculateExpiryDate 0 "30x" =
      .error "Invalid expiry format. Use format like: 30d, 24h, 60m, 3600s" := by
  constructor
  · exact calculateExpiryDate_spec.1 0 ['3', '0'] 'd' (by decide)
      (by decide) (Or.inl rfl)
  · apply calculateExpiryDate_spec.2 0 "30x"
    rintro ⟨ds, u, hne, hdig, hu, hdata⟩
    have : u = 'x' := by
      have := congrArg List.getLast? hdata
      rw [List.getLast?_concat] at this
      have h30x : ("30x" : String).data = ['3', '0', 'x'] := rfl
      rw [h30x] at this
      simpa using this.symm
    rcases hu with rfl | rfl | rfl | rfl <;> simp_all

/-- A persisted `tokens` row (`Token` model). -/
structure TokenRow where
  tokenId : Nat
  userId : Nat
  refreshToken : String
  deviceId : Option String
  userAgent : Option String
  ipAddress : Option String
  expiresAt : Int
  lastUsedAt : Option Int
  isActive : Bool
  revocationReason : Option String
deriving DecidableEq, Repr

/-- Decoded JWT claims (`{_id, role}`). -/
structure Claims where
  «_id» : Nat
  role : String
deriving DecidableEq, Repr

/-- Result shape of `Token.verifyRefreshToken`. -/
inductive VerifyResult where
  | invalid (message : String)
  | valid (token : TokenRow) (decoded : Claims)
deriving DecidableEq, Repr

/-- `Token.verifyRefreshToken` (token.js lines 143–165): the storage lookup
(`findOne` on `refreshToken` and `isActive: true`) runs first, then the
stored expiry check, then signature verification (`jwt.verify`, modelled by
the abstract checker `jwtVerify`, which returns the decoded claims exactly
when the signature is valid). -/
def verifyRefreshToken (jwtVerify : String → Option Claims) (now : Int)
    (store : List TokenRow) (refreshToken : String) : VerifyResult :=
  match store.find? (fun r => r.refreshToken == refreshToken && r.isActive) with
  | none => .invalid "Token not found or revoked"
  | some tokenRecord =>
    if now > tokenRecord.expiresAt then
      .invalid "Token expired"
    else
      match jwtVerify refreshToken with
      | none => .invalid "Invalid token signature"
      | some decoded => .valid tokenRecord decoded

/-- `Token.revokeToken` (token.js lines 168–180): sets `isActive = false`
and records the reason on every row whose `refreshToken` matches. -/
def revokeToken (store : List TokenRow) (refreshToken : String)
    (reason : String) : List TokenRow :=
  store.map (fun r =>
    if r.refreshToken == refreshToken then
      { r with isActive := false, revocationReason := some reason }
    else r)

/-- The refresh-token storage step shared by `login` and `verifyOtp`: a
single `Token.update` with `where: {userId, isActive: true}` (not scoped by
`deviceId`) overwrites `refreshToken`, `expiresAt`, `deviceId`, `userAgent`,
`ipAddress`, `isActive`, `lastUsedAt` on every active row of the user;
`Token.create` runs only when that update touched zero rows. -/
def loginUpdateRow (userId : Nat) (refreshToken : String) (expiresAt : Int)
    (deviceId userAgent ipAddress : Option String) (now : Int)
    (r : TokenRow) : TokenRow :=
  if r.userId == userId && r.isActive then
    { r with
        refreshToken := refreshToken,
        expiresAt := expiresAt,
        deviceId := deviceId,
        userAgent := userAgent,
        ipAddress := ipAddress,
        isActive := true,
        lastUsedAt := some now }
  else r

/-- The row inserted by the `Token.create` fallback of the login flows. -/
def loginCreatedRow (userId : Nat) (refreshToken : String) (expiresAt : Int)
    (deviceId userAgent ipAddress : Option String) (newTokenId : Nat) :
    TokenRow :=
  { tokenId := newTokenId, userId := userId, refreshToken := refreshToken,
    deviceId := deviceId, userAgent := userAgent, ipAddress := ipAddress,
    expiresAt := expiresAt, lastUsedAt := none, isActive := true,
    revocationReason := none }

def loginStoreRefreshToken (store : List TokenRow) (userId : Nat)
    (refreshToken : String) (expiresAt : Int) (deviceId userAgent ipAddress :
    Option String) (now : Int) (newTokenId : Nat) : List TokenRow :=
  let updated := store.map
    (loginUpdateRow userId refreshToken expiresAt deviceId userAgent ipAddress now)
  let updatedCount :=
    (store.filter (fun r => r.userId == userId && r.isActive)).length
  if updatedCount == 0 then
    updated ++
      [loginCreatedRow userId refreshToken expiresAt deviceId userAgent
        ipAddress newTokenId]
  else updated

/-- C10: the login-time storage step updates every active token row of the
user — the `where` clause is `{userId, isActive: true}`, not scoped by
`deviceId` — overwriting `refreshToken`, `expiresAt`, `deviceId`,
`userAgent` and `ipAddress` with the request's values; rows of other users
and inactive rows are untouched; a new row is created exactly when the user
had zero active rows; afterwards every active row of the user carries the
single new refresh token. -/
theorem loginStoreRefreshToken_spec (store : List TokenRow) (uid : Nat)
    (tok : String) (exp : Int) (dev ua ip : Option String) (now : Int)
    (nid : Nat) :
    ((∀ r ∈ store, r.userId = uid → r.isActive = true →
        ({ r with
            refreshToken := tok,
            expiresAt := exp,
            deviceId := dev,
            userAgent := ua,
            ipAddress := ip,
            isActive := true,
            lastUsedAt := some now } : TokenRow) ∈
          loginStoreRefreshToken store uid tok exp dev ua ip now nid) ∧
     (∀ r ∈ store, ¬(r.userId = uid ∧ r.isActive = true) →
        r ∈ loginStoreRefreshToken store uid tok exp dev ua ip now nid) ∧
     ((loginStoreRefreshToken store uid tok exp dev ua ip now nid).length =
        if (store.filter (fun r => r.userId == uid && r.isActive)).length = 0
        then store.length + 1 else store.length) ∧
     (∀ r ∈ loginStoreRefreshToken store uid tok exp dev ua ip now nid,
        r.userId = uid → r.isActive = true → r.refreshToken = tok)) := by
  have hmap : ∀ x ∈ store.map (loginUpdateRow uid tok exp dev ua ip now),
      x.userId = uid → x.isActive = true → x.refreshToken = tok := by
    intro x hx hxu hxa
    obtain ⟨y, -, rfl⟩ := List.mem_map.mp hx
    unfold loginUpdateRow
    by_cases hy : (y.userId == uid && y.isActive) = true
    · rw [if_pos hy]
    · exfalso
      unfold loginUpdateRow at hxu hxa
      rw [if_neg hy] at hxu hxa
      exact hy (by simp [hxu, hxa])
  refine ⟨?_, ?_, ?_, ?_⟩
  · intro r hr hu ha
    unfold loginStoreRefreshToken
    have hmem : ({ r with
        refreshToken := tok,
        expiresAt := exp,
        deviceId := dev,
        userAgent := ua,
        ipAddress := ip,
        isActive := true,
        lastUsedAt := some now } : TokenRow) ∈
          store.map (loginUpdateRow uid tok exp dev ua ip now) := by
      apply List.mem_map.mpr
      refine ⟨r, hr, ?_⟩
      unfold loginUpdateRow
      rw [if_pos (by simp [hu, ha])]
    by_cases hc :
        ((store.filter (fun r => r.userId == uid && r.isActive)).length == 0) = true
    · rw [if_pos hc]
      exact List.mem_append_left _ hmem
    · rw [if_neg hc]
      exact hmem
  · intro r hr hna
    unfold loginStoreRefreshToken
    have hmem : r ∈ store.map (loginUpdateRow uid tok exp dev ua ip now) := by
      apply List.mem_map.mpr
      refine ⟨r, hr, ?_⟩
      unfold loginUpdateRow
      rw [if_neg (by simpa using hna)]
    by_cases hc :
        ((store.filter (fun r => r.userId == uid && r.isActive)).length == 0) = true
    · rw [if_pos hc]
      exact List.mem_append_left _ hmem
    · rw [if_neg hc]
      exact hmem
  · unfold loginStoreRefreshToken
    by_cases hc :
        (store.filter (fun r => r.userId == uid && r.isActive)).length = 0
    · simp [hc]
    · simp [hc]
  · intro r hr hu ha
    unfold loginStoreRefreshToken at hr
    by_cases hc :
        ((store.filter (fun r => r.userId == uid && r.isActive)).length == 0) = true
    · rw [if_pos hc] at hr
      rcases List.mem_append.mp hr with hmem | hmem
      · exact hmap r hmem hu ha
      · simp only [List.mem_singleton] at hmem
        subst hmem
        rfl
    · rw [if_neg hc] at hr
      exact hmap r hr hu ha

/-- Witness for `loginStoreRefreshToken_spec`: with two active rows on two
different devices, both rows are overwritten with the new token and the
request's device context, nothing is created, and every active row carries
the same refresh token. -/
theorem loginStoreRefreshToken_spec_witness :
    ((⟨1, 7, "new", some "devA", none, none, 99, some 50, true, none⟩ :
        TokenRow) ∈
      loginStoreRefreshToken
        [⟨1, 7, "old", some "devA", none, none, 10, none, true, none⟩,
         ⟨2, 7, "old2", some "devB", none, none, 10, none, true, none⟩]
        7 "new" 99 (some "devA") none none 50 3) ∧
    ((⟨2, 7, "new", some "devA", none, none, 99, some 50, true, none⟩ :
        TokenRow) ∈
      loginStoreRefreshToken
        [⟨1, 7, "old", some "devA", none, none, 10, none, true, none⟩,
         ⟨2, 7, "old2", some "devB", none, none, 10, none, true, none⟩]
        7 "new" 99 (some "devA") none none 50 3) := by
  constructor
  · exact (loginStoreRefreshToken_spec
      [⟨1, 7, "old", some "devA", none, none, 10, none, true, none⟩,
       ⟨2, 7, "old2", some "devB", none, none, 10, none, true, none⟩]
      7 "new" 99 (some "devA") none none 50 3).1
      ⟨1, 7, "old", some "devA", none, none, 10, none, true, none⟩
      (by decide) rfl rfl
  · exact (loginStoreRefreshToken_spec
      [⟨1, 7, "old", some "devA", none, none, 10, none, true, none⟩,
       ⟨2, 7, "old2", some "devB", none, none, 10, none, true, none⟩]
      7 "new" 99 (some "devA") none none 50 3).1
      ⟨2, 7, "old2", some "devB", none, none, 10, none, true, none⟩
      (by decide) rfl rfl

/-- C3: `verifyRefreshToken` checks storage before the signature — with no
matching active row it reports "Token not found or revoked" for every
possible signature checker (in particular after `revokeToken` on that
token); with an active row past `expiresAt` it reports "Token expired"
even though `isActive = true` in storage and again for every signature
checker; with an unexpired active row it rejects an invalid signature and
otherwise returns the stored record with the decoded claims. -/
theorem verifyRefreshToken_spec (jwtVerify : String → Option Claims)
    (now : Int) (store : List TokenRow) (tok : String) :
    ((store.find? (fun r => r.refreshToken == tok && r.isActive) = none →
        verifyRefreshToken jwtVerify now store tok =
          .invalid "Token not found or revoked") ∧
     (∀ reason, verifyRefreshToken jwtVerify now (revokeToken store tok reason) tok =
        .invalid "Token not found or revoked") ∧
     (∀ r, store.find? (fun r => r.refreshToken == tok && r.isActive) = some r →
        now > r.expiresAt →
          r.isActive = true ∧
          verifyRefreshToken jwtVerify now store tok = .invalid "Token expired") ∧
     (∀ r, store.find? (fun r => r.refreshToken == tok && r.isActive) = some r →
        ¬ now > r.expiresAt →
          verifyRefreshToken jwtVerify now store tok =
            (match jwtVerify tok with
             | none => .invalid "Invalid token signature"
             | some decoded => .valid r decoded))) := by
  refine ⟨?_, ?_, ?_, ?_⟩
  · intro h
    unfold verifyRefreshToken
    rw [h]
  · intro reason
    unfold verifyRefreshToken
    have hnone : (revokeToken store tok reason).find?
        (fun r => r.refreshToken == tok && r.isActive) = none := by
      apply List.find?_eq_none.mpr
      intro x hx
      unfold revokeToken at hx
      simp only [List.mem_map] at hx
      obtain ⟨y, -, rfl⟩ := hx
      by_cases hy : y.refreshToken == tok
      · simp [hy]
      · simp [hy]
    rw [hnone]
  · intro r hfind hexp
    have hp := List.find?_some hfind
    simp only [Bool.and_eq_true, beq_iff_eq] at hp
    refine ⟨hp.2, ?_⟩
    simp only [verifyRefreshToken, hfind, if_pos hexp]
  · intro r hfind hexp
    simp only [verifyRefreshToken, hfind, if_neg hexp]

/-- Witness for `verifyRefreshToken_spec` at a concrete store: a revoked
token is rejected as "Token not found or revoked", an expired-but-active
row as "Token expired". -/
theorem verifyRefreshToken_spec_witness :
    verifyRefreshToken (fun _ => some ⟨7, "Owner"⟩) 1000
        (revokeToken [⟨1, 7, "tok", none, none, none, 5000, none, true, none⟩]
          "tok" "logout") "tok" =
      .invalid "Token not found or revoked" ∧
    verifyRefreshToken (fun _ => some ⟨7, "Owner"⟩) 9000
        [⟨1, 7, "tok", none, none, none, 5000, none, true, none⟩] "tok" =
      .invalid "Token expired" ∧
    verifyRefreshToken (fun _ => some ⟨7, "Owner"⟩) 1000
        [⟨1, 7, "tok", none, none, none, 5000, none, true, none⟩] "tok" =
      .valid ⟨1, 7, "tok", none, none, none, 5000, none, true, none⟩ ⟨7, "Owner"⟩ := by
  refine ⟨?_, ?_, ?_⟩
  · exact (verifyRefreshToken_spec (fun _ => some ⟨7, "Owner"⟩) 1000
      [⟨1, 7, "tok", none, none, none, 5000, none, true, none⟩] "tok").2.1 "logout"
  · exact ((verifyRefreshToken_spec (fun _ => some ⟨7, "Owner"⟩) 9000
      [⟨1, 7, "tok", none, none, none, 5000, none, true, none⟩] "tok").2.2.1
      ⟨1, 7, "tok", none, none, none, 5000, none, true, none⟩ (by decide)
      (by decide)).2
  · exact (verifyRefreshToken_spec (fun _ => some ⟨7, "Owner"⟩) 1000
      [⟨1, 7, "tok", none, none, none, 5000, none, true, none⟩] "tok").2.2.2
      ⟨1, 7, "tok", none, none, none, 5000, none, true, none⟩ (by decide)
      (by decide)

/-!
## Permission Resolver

From `middleware/auth.js`.  The Sequelize queries join `permissions` to
`roles` through `role_permissions`; the `where` on the permission side is
only on `code`, the `where` on the role side is `roleId ∈ actor's roles`
and `isActive: true`.  No permission-level attribute other than `code` is
consulted.
-/

/-- A `roles` row. -/
structure RoleRow where
  roleId : Nat
  roleName : String
  isActive : Bool
deriving DecidableEq, Repr

/-- A `permissions` row.  Besides the lookup key `code`, the table carries
the category flag attributes of the source model (`isAdmin`, `isInvestor`,
`isOwner`, `isBroker`); the resolver never reads them. -/
structure PermRow where
  permissionId : Nat
  code : String
  isAdmin : Bool
  isInvestor : Bool
  isOwner : Bool
  isBroker : Bool
deriving DecidableEq, Repr

/-- The credential store tables consulted by the permission middlewares. -/
structure AuthDb where
  roles : List RoleRow
  permissions : List PermRow
  rolePermissions : List (Nat × Nat)
deriving DecidableEq, Repr

/-- The role-side include of the permission queries: the permission is
linked (via `role_permissions`) to some role of the actor that is active.
Only the role's `isActive` flag is filtered. -/
def grantedToActiveRole (db : AuthDb) (actorRoleIds : List Nat)
    (p : PermRow) : Bool :=
  db.roles.any (fun r =>
    actorRoleIds.contains r.roleId && r.isActive &&
      db.rolePermissions.contains (r.roleId, p.permissionId))

/-- `checkPermission` (auth.js lines 90–142): `findOne` on the exact code
joined to the actor's active roles; 403 when no row comes back. -/
def checkPermission (db : AuthDb) (actorRoleIds : List Nat)
    (permissionCode : String) : Except (Nat × String) String :=
  match db.permissions.find? (fun p =>
      p.code == permissionCode && grantedToActiveRole db actorRoleIds p) with
  | some p => .ok p.code
  | none => .error (403, "Access denied. Required permission: " ++ permissionCode)

/-- `checkAnyPermission` (auth.js lines 149–202): `findOne` with
`code IN permissionCodes`, stopping at the first match. -/
def checkAnyPermission (db : AuthDb) (actorRoleIds : List Nat)
    (permissionCodes : List String) : Except (Nat × String) String :=
  match db.permissions.find? (fun p =>
      permissionCodes.contains p.code && grantedToActiveRole db actorRoleIds p) with
  | some p => .ok p.code
  | none => .error (403, "Access denied. Required permissions: " ++
      String.intercalate " or " permissionCodes)

/-- `checkAllPermissions` (auth.js lines 210–274): `findAll` over the
requested codes joined to the actor's active roles, then an `every` check
that the found code set covers the request; on failure a 403 carrying
exactly the requested codes that were not found. -/
def checkAllPermissions (db : AuthDb) (actorRoleIds : List Nat)
    (permissionCodes : List String) : Except (Nat × List String) (List String) :=
  let permissions := db.permissions.filter (fun p =>
    permissionCodes.contains p.code && grantedToActiveRole db actorRoleIds p)
  let foundCodes := permissions.map (fun p => p.code)
  let hasAllPermissions := permissionCodes.all (fun code => foundCodes.contains code)
  if hasAllPermissions then .ok foundCodes
  else .error (403, permissionCodes.filter (fun code => !foundCodes.contains code))

/-- The spec-side notion of coverage: the requested code is granted to at
least one of the actor's active roles. -/
def codeCovered (db : AuthDb) (actorRoleIds : List Nat) (code : String) : Prop :=
  ∃ p ∈ db.permissions, p.code = code ∧
    ∃ r ∈ db.roles, r.roleId ∈ actorRoleIds ∧ r.isActive = true ∧
      (r.roleId, p.permissionId) ∈ db.rolePermissions

instance (db : AuthDb) (actorRoleIds : List Nat) (code : String) :
    Decidable (codeCovered db actorRoleIds code) := by
  unfold codeCovered
  infer_instance


theorem grantedToActiveRole_iff (db : AuthDb) (actorRoleIds : List Nat)
    (p : PermRow) :
    grantedToActiveRole db actorRoleIds p = true ↔
      ∃ r ∈ db.roles, r.roleId ∈ actorRoleIds ∧ r.isActive = true ∧
        (r.roleId, p.permissionId) ∈ db.rolePermissions := by
  unfold grantedToActiveRole
  rw [List.any_eq_true]
  constructor
  · rintro ⟨r, hr, hcond⟩
    simp only [Bool.and_eq_true] at hcond
    exact ⟨r, hr, List.elem_iff.mp hcond.1.1, hcond.1.2,
      List.elem_iff.mp hcond.2⟩
  · rintro ⟨r, hr, h1, h2, h3⟩
    refine ⟨r, hr, ?_⟩
    simp only [Bool.and_eq_true]
    exact ⟨⟨List.elem_iff.mpr h1, h2⟩, List.elem_iff.mpr h3⟩

theorem foundCodes_contains_iff (db : AuthDb) (actorRoleIds : List Nat)
    (permissionCodes : List String) (c : String) (hc : c ∈ permissionCodes) :
    ((db.permissions.filter (fun p =>
        permissionCodes.contains p.code &&
          grantedToActiveRole db actorRoleIds p)).map
      (fun p => p.code)).contains c = true ↔
      codeCovered db actorRoleIds c := by
  rw [List.elem_iff]
  constructor
  · intro h
    obtain ⟨p, hp, rfl⟩ := List.mem_map.mp h
    obtain ⟨hpm, hcond⟩ := List.mem_filter.mp hp
    simp only [Bool.and_eq_true] at hcond
    exact ⟨p, hpm, rfl, (grantedToActiveRole_iff db actorRoleIds p).mp hcond.2⟩
  · rintro ⟨p, hpm, rfl, hrole⟩
    apply List.mem_map.mpr
    refine ⟨p, List.mem_filter.mpr ⟨hpm, ?_⟩, rfl⟩
    simp only [Bool.and_eq_true]
    exact ⟨List.elem_iff.mpr hc,
      (grantedToActiveRole_iff db actorRoleIds p).mpr hrole⟩

theorem foundCodes_contains_eq_decide (db : AuthDb) (actorRoleIds : List Nat)
    (permissionCodes : List String) (c : String) (hc : c ∈ permissionCodes) :
    ((db.permissions.filter (fun p =>
        permissionCodes.contains p.code &&
          grantedToActiveRole db actorRoleIds p)).map
      (fun p => p.code)).contains c =
      decide (codeCovered db actorRoleIds c) := by
  by_cases hcov : codeCovered db actorRoleIds c
  · rw [(foundCodes_contains_iff db actorRoleIds permissionCodes c hc).mpr hcov]
    simp [hcov]
  · cases hb : ((db.permissions.filter (fun p =>
        permissionCodes.contains p.code &&
          grantedToActiveRole db actorRoleIds p)).map
      (fun p => p.code)).contains c with
    | false => simp [hcov]
    | true =>
      exact absurd
        ((foundCodes_contains_iff db actorRoleIds permissionCodes c hc).mp hb)
        hcov

/-- C4: `checkAllPermissions` grants iff every requested code is granted to
at least one of the actor's active roles; on failure it fails with status
403 reporting exactly the requested codes that are not covered; and in the
two-code scenario where the actor's roles grant only "A", the failure lists
exactly ["B"]. -/
theorem checkAllPermissions_spec (db : AuthDb) (actorRoleIds : List Nat)
    (permissionCodes : List String) :
    (((checkAllPermissions db actorRoleIds permissionCodes).isOk = true ↔
        ∀ c ∈ permissionCodes, codeCovered db actorRoleIds c) ∧
     (∀ st missing,
        checkAllPermissions db actorRoleIds permissionCodes =
          .error (st, missing) →
        st = 403 ∧
          missing = permissionCodes.filter
            (fun c => !decide (codeCovered db actorRoleIds c))) ∧
     (checkAllPermissions
        ⟨[⟨10, "Sales", true⟩],
         [⟨1, "A", false, false, false, false⟩,
          ⟨2, "B", false, false, false, false⟩],
         [(10, 1)]⟩ [10] ["A", "B"] = .error (403, ["B"]))) := by
  refine ⟨?_, ?_, by rfl⟩
  · unfold checkAllPermissions
    by_cases hall : (permissionCodes.all (fun code =>
        ((db.permissions.filter (fun p =>
          permissionCodes.contains p.code &&
            grantedToActiveRole db actorRoleIds p)).map
          (fun p => p.code)).contains code)) = true
    · rw [if_pos hall]
      simp only [Except.isOk, Except.toBool, true_iff]
      intro c hc
      exact (foundCodes_contains_iff db actorRoleIds permissionCodes c hc).mp
        (List.all_eq_true.mp hall c hc)
    · rw [if_neg hall]
      constructor
      · intro h
        exact absurd h (by simp [Except.isOk, Except.toBool])
      · intro hcov
        exact absurd (List.all_eq_true.mpr (fun c hc =>
          (foundCodes_contains_iff db actorRoleIds permissionCodes c hc).mpr
            (hcov c hc))) hall
  · intro st missing herr
    unfold checkAllPermissions at herr
    by_cases hall : (permissionCodes.all (fun code =>
        ((db.permissions.filter (fun p =>
          permissionCodes.contains p.code &&
            grantedToActiveRole db actorRoleIds p)).map
          (fun p => p.code)).contains code)) = true
    · rw [if_pos hall] at herr
      exact absurd herr (by simp)
    · rw [if_neg hall] at herr
      simp only [Except.error.injEq, Prod.mk.injEq] at herr
      refine ⟨herr.1.symm, ?_⟩
      rw [← herr.2]
      apply List.filter_congr
      intro c hc
      rw [foundCodes_contains_eq_decide db actorRoleIds permissionCodes c hc]

/-- Witness for `checkAllPermissions_spec`: its granting criterion applied
at the concrete two-code scenario database, where code "B" is not covered. -/
theorem checkAllPermissions_spec_witness :
    (403 : Nat) = 403 ∧
    (["B"] : List String) =
      ["A", "B"].filter (fun c => !decide (codeCovered
        ⟨[⟨10, "Sales", true⟩],
         [⟨1, "A", false, false, false, false⟩,
          ⟨2, "B", false, false, false, false⟩],
         [(10, 1)]⟩ [10] c)) :=
  (checkAllPermissions_spec
    ⟨[⟨10, "Sales", true⟩],
     [⟨1, "A", false, false, false, false⟩,
      ⟨2, "B", false, false, false, false⟩],
     [(10, 1)]⟩ [10] ["A", "B"]).2.1 403 ["B"]
    (checkAllPermissions_spec
      ⟨[⟨10, "Sales", true⟩],
       [⟨1, "A", false, false, false, false⟩,
        ⟨2, "B", false, false, false, false⟩],
       [(10, 1)]⟩ [10] ["A", "B"]).2.2

/-!
### C9: role-side-only filtering

The queries in all three permission middlewares filter `isActive` only on
the joined role; no attribute of the `permissions` table other than the
lookup key `code` (and the join key `permissionId`) influences resolution.
-/

theorem grantedToActiveRole_permMap (db : AuthDb) (f : PermRow → PermRow)
    (hid : ∀ p, (f p).permissionId = p.permissionId)
    (actorRoleIds : List Nat) (p : PermRow) :
    grantedToActiveRole { db with permissions := db.permissions.map f }
        actorRoleIds (f p) =
      grantedToActiveRole db actorRoleIds p := by
  unfold grantedToActiveRole
  simp [hid]

theorem checkPermission_permMap (db : AuthDb) (f : PermRow → PermRow)
    (hid : ∀ p, (f p).permissionId = p.permissionId)
    (hcode : ∀ p, (f p).code = p.code) (actorRoleIds : List Nat)
    (code : String) :
    checkPermission { db with permissions := db.permissions.map f }
        actorRoleIds code =
      checkPermission db actorRoleIds code := by
  unfold checkPermission
  rw [show ({ db with permissions := db.permissions.map f } : AuthDb).permissions
      = db.permissions.map f from rfl]
  rw [List.find?_map]
  have hpred : ((fun p => p.code == code &&
      grantedToActiveRole { db with permissions := db.permissions.map f }
        actorRoleIds p) ∘ f) =
      (fun p => p.code == code && grantedToActiveRole db actorRoleIds p) := by
    funext p
    simp only [Function.comp_apply, hcode p,
      grantedToActiveRole_permMap db f hid actorRoleIds p]
  rw [hpred]
  cases hfind : db.permissions.find? (fun p =>
      p.code == code && grantedToActiveRole db actorRoleIds p) with
  | none => rfl
  | some p => simp [hcode p]

theorem checkAnyPermission_permMap (db : AuthDb) (f : PermRow → PermRow)
    (hid : ∀ p, (f p).permissionId = p.permissionId)
    (hcode : ∀ p, (f p).code = p.code) (actorRoleIds : List Nat)
    (codes : List String) :
    checkAnyPermission { db with permissions := db.permissions.map f }
        actorRoleIds codes =
      checkAnyPermission db actorRoleIds codes := by
  unfold checkAnyPermission
  rw [show ({ db with permissions := db.permissions.map f } : AuthDb).permissions
      = db.permissions.map f from rfl]
  rw [List.find?_map]
  have hpred : ((fun p => codes.contains p.code &&
      grantedToActiveRole { db with permissions := db.permissions.map f }
        actorRoleIds p) ∘ f) =
      (fun p => codes.contains p.code &&
        grantedToActiveRole db actorRoleIds p) := by
    funext p
    simp only [Function.comp_apply, hcode p,
      grantedToActiveRole_permMap db f hid actorRoleIds p]
  rw [hpred]
  cases hfind : db.permissions.find? (fun p =>
      codes.contains p.code && grantedToActiveRole db actorRoleIds p) with
  | none => rfl
  | some p => simp [hcode p]

theorem checkAllPermissions_permMap (db : AuthDb) (f : PermRow → PermRow)
    (hid : ∀ p, (f p).permissionId = p.permissionId)
    (hcode : ∀ p, (f p).code = p.code) (actorRoleIds : List Nat)
    (codes : List String) :
    checkAllPermissions { db with permissions := db.permissions.map f }
        actorRoleIds codes =
      checkAllPermissions db actorRoleIds codes := by
  unfold checkAllPermissions
  rw [show ({ db with permissions := db.permissions.map f } : AuthDb).permissions
      = db.permissions.map f from rfl]
  rw [List.filter_map]
  have hpred : ((fun p => codes.contains p.code &&
      grantedToActiveRole { db with permissions := db.permissions.map f }
        actorRoleIds p) ∘ f) =
      (fun p => codes.contains p.code &&
        grantedToActiveRole db actorRoleIds p) := by
    funext p
    simp only [Function.comp_apply, hcode p,
      grantedToActiveRole_permMap db f hid actorRoleIds p]
  rw [hpred]
  have hcodes : ((db.permissions.filter (fun p => codes.contains p.code &&
      grantedToActiveRole db actorRoleIds p)).map f).map (fun p => p.code) =
      (db.permissions.filter (fun p => codes.contains p.code &&
        grantedToActiveRole db actorRoleIds p)).map (fun p => p.code) := by
    rw [List.map_map]
    exact List.map_congr_left (fun p _ => hcode p)
  dsimp only
  rw [hcodes]

theorem grantedToActiveRole_noActiveRole (db : AuthDb)
    (actorRoleIds : List Nat)
    (hno : ∀ r ∈ db.roles, r.roleId ∈ actorRoleIds → r.isActive = false)
    (p : PermRow) :
    grantedToActiveRole db actorRoleIds p = false := by
  cases hb : grantedToActiveRole db actorRoleIds p with
  | false => rfl
  | true =>
    obtain ⟨r, hr, h1, h2, -⟩ := (grantedToActiveRole_iff db actorRoleIds p).mp hb
    rw [hno r hr h1] at h2
    cases h2

theorem checkPermission_isOk_iff (db : AuthDb) (actorRoleIds : List Nat)
    (code : String) :
    (checkPermission db actorRoleIds code).isOk = true ↔
      codeCovered db actorRoleIds code := by
  unfold checkPermission
  cases hfind : db.permissions.find? (fun p =>
      p.code == code && grantedToActiveRole db actorRoleIds p) with
  | none =>
    simp only [Except.isOk, Except.toBool]
    constructor
    · intro h; cases h
    · rintro ⟨p, hpm, hpc, hrole⟩
      have := List.find?_eq_none.mp hfind p hpm
      simp only [Bool.and_eq_true, beq_iff_eq, not_and] at this
      exact absurd ((grantedToActiveRole_iff db actorRoleIds p).mpr hrole)
        (by simpa using this hpc)
  | some p =>
    simp only [Except.isOk, Except.toBool, true_iff]
    have hp := List.find?_some hfind
    have hpm := List.mem_of_find?_eq_some hfind
    simp only [Bool.and_eq_true, beq_iff_eq] at hp
    exact ⟨p, hpm, hp.1, (grantedToActiveRole_iff db actorRoleIds p).mp hp.2⟩

/-- C9 (amended): resolution by all three permission middlewares is
invariant under arbitrary rewrites of permission-table attributes that
preserve the lookup key `code` and the join key `permissionId` — so no
permission-level status flag is ever filtered and a permission granted
through an active role is honored regardless of such attributes (for
`checkPermission`, granting is exactly coverage through an active role);
a caller none of whose roles is active is denied by `checkPermission` and
`checkAnyPermission` always, and by `checkAllPermissions` whenever at
least one code is requested, with the full requested list reported
missing. -/
theorem permissionResolution_spec :
    ((∀ (db : AuthDb) (f : PermRow → PermRow) (actorRoleIds : List Nat)
        (code : String) (codes : List String),
        (∀ p, (f p).permissionId = p.permissionId) →
        (∀ p, (f p).code = p.code) →
        checkPermission { db with permissions := db.permissions.map f }
            actorRoleIds code = checkPermission db actorRoleIds code ∧
        checkAnyPermission { db with permissions := db.permissions.map f }
            actorRoleIds codes = checkAnyPermission db actorRoleIds codes ∧
        checkAllPermissions { db with permissions := db.permissions.map f }
            actorRoleIds codes = checkAllPermissions db actorRoleIds codes) ∧
     (∀ (db : AuthDb) (actorRoleIds : List Nat) (code : String),
        (checkPermission db actorRoleIds code).isOk = true ↔
          codeCovered db actorRoleIds code) ∧
     (∀ (db : AuthDb) (actorRoleIds : List Nat) (code : String)
        (codes : List String),
        (∀ r ∈ db.roles, r.roleId ∈ actorRoleIds → r.isActive = false) →
        checkPermission db actorRoleIds code =
          .error (403, "Access denied. Required permission: " ++ code) ∧
        checkAnyPermission db actorRoleIds codes =
          .error (403, "Access denied. Required permissions: " ++
            String.intercalate " or " codes) ∧
        (codes ≠ [] →
          checkAllPermissions db actorRoleIds codes = .error (403, codes)))) := by
  refine ⟨?_, checkPermission_isOk_iff, ?_⟩
  · intro db f actorRoleIds code codes hid hcode
    exact ⟨checkPermission_permMap db f hid hcode actorRoleIds code,
      checkAnyPermission_permMap db f hid hcode actorRoleIds codes,
      checkAllPermissions_permMap db f hid hcode actorRoleIds codes⟩
  · intro db actorRoleIds code codes hno
    have hgr := grantedToActiveRole_noActiveRole db actorRoleIds hno
    refine ⟨?_, ?_, ?_⟩
    · unfold checkPermission
      have hfind : db.permissions.find? (fun p =>
          p.code == code && grantedToActiveRole db actorRoleIds p) = none := by
        apply List.find?_eq_none.mpr
        intro p _
        simp [hgr p]
      rw [hfind]
    · unfold checkAnyPermission
      have hfind : db.permissions.find? (fun p =>
          codes.contains p.code && grantedToActiveRole db actorRoleIds p) =
            none := by
        apply List.find?_eq_none.mpr
        intro p _
        simp [hgr p]
      rw [hfind]
    · intro hne
      unfold checkAllPermissions
      have hfilter : db.permissions.filter (fun p =>
          codes.contains p.code && grantedToActiveRole db actorRoleIds p) =
            [] := by
        apply List.filter_eq_nil_iff.mpr
        intro p _
        simp [hgr p]
      rw [hfilter]
      cases codes with
      | nil => exact absurd rfl hne
      | cons c cs =>
        simp [List.filter_true]

/-- Witness for `permissionResolution_spec`: at a concrete store, flipping
every permission-status flag does not change resolution, coverage through
an active role grants even with all flags cleared, and an actor holding
only an inactive role is denied with the whole request reported missing. -/
theorem permissionResolution_spec_witness :
    (checkPermission
        { roles := [⟨10, "Sales", true⟩],
          permissions := (([⟨1, "A", false, false, false, false⟩] :
            List PermRow).map (fun p => { p with isAdmin := !p.isAdmin })),
          rolePermissions := [(10, 1)] } [10] "A" =
      checkPermission
        ⟨[⟨10, "Sales", true⟩], [⟨1, "A", false, false, false, false⟩],
         [(10, 1)]⟩ [10] "A") ∧
    (checkPermission
        ⟨[⟨10, "Sales", true⟩], [⟨1, "A", false, false, false, false⟩],
         [(10, 1)]⟩ [10] "A").isOk = true ∧
    (checkPermission
        ⟨[⟨10, "Sales", false⟩], [⟨1, "A", false, false, false, false⟩],
         [(10, 1)]⟩ [10] "A" =
      .error (403, "Access denied. Required permission: " ++ "A")) ∧
    (checkAllPermissions
        ⟨[⟨10, "Sales", false⟩], [⟨1, "A", false, false, false, false⟩],
         [(10, 1)]⟩ [10] ["A", "B"] = .error (403, ["A", "B"])) := by
  refine ⟨?_, ?_, ?_, ?_⟩
  · exact (permissionResolution_spec.1
      ⟨[⟨10, "Sales", true⟩], [⟨1, "A", false, false, false, false⟩],
       [(10, 1)]⟩ (fun p => { p with isAdmin := !p.isAdmin }) [10] "A" []
      (fun _ => rfl) (fun _ => rfl)).1
  · exact (permissionResolution_spec.2.1
      ⟨[⟨10, "Sales", true⟩], [⟨1, "A", false, false, false, false⟩],
       [(10, 1)]⟩ [10] "A").mpr
      ⟨⟨1, "A", false, false, false, false⟩, by decide, rfl,
        ⟨10, "Sales", true⟩, by decide, by decide, rfl, by decide⟩
  · exact (permissionResolution_spec.2.2
      ⟨[⟨10, "Sales", false⟩], [⟨1, "A", false, false, false, false⟩],
       [(10, 1)]⟩ [10] "A" [] (by decide)).1
  · exact (permissionResolution_spec.2.2
      ⟨[⟨10, "Sales", false⟩], [⟨1, "A", false, false, false, false⟩],
       [(10, 1)]⟩ [10] "A" ["A", "B"] (by decide)).2.2 (by decide)

/-- Counterexample to C9 as stated: an authenticated caller holding only an
inactive role is nevertheless granted by `checkAllPermissions` when the
requested code list is empty (the `every` check over an empty list is
vacuously true), so "always denied" fails at this input. -/
theorem checkAllPermissions_emptyRequest_cex :
    (∀ r ∈ ([⟨10, "Sales", false⟩] : List RoleRow),
        r.roleId ∈ ([10] : List Nat) → r.isActive = false) ∧
    checkAllPermissions
      ⟨[⟨10, "Sales", false⟩], [⟨1, "A", false, false, false, false⟩],
       [(10, 1)]⟩ [10] ([] : List String) = .ok [] := by
  exact ⟨by decide, rfl⟩


/-!
## Assignment Balancer

From `createProperty` in `src/controllers/property.js` (part of the create
flow): enumerate the active Sales-role holders, look up each one's active
property count, and reduce with the first holder as the initial accumulator,
replacing it only on a strictly smaller count.
-/

/-- The `salesUserIds.reduce((minId, id) => count < minCount ? id : minId,
salesUserIds[0])` selection.  `none` when the holder pool is empty (the
source guards the reduce with `salesUsers.length > 0`). -/
def pickLeastLoaded {α : Type} (counts : α → Nat) (ids : List α) : Option α :=
  match ids with
  | [] => none
  | h :: _ =>
    some (ids.foldl (fun minId id => if counts id < counts minId then id else minId) h)

theorem foldl_min_decomp {α : Type} (counts : α → Nat) (l : List α) (b : α) :
    (l.foldl (fun minId id => if counts id < counts minId then id else minId) b = b ∧
      ∀ a ∈ l, counts b ≤ counts a) ∨
    (∃ l₁ x l₂, l = l₁ ++ x :: l₂ ∧
      l.foldl (fun minId id => if counts id < counts minId then id else minId) b = x ∧
      counts x < counts b ∧ (∀ a ∈ l₁, counts x < counts a) ∧
      (∀ a ∈ l₂, counts x ≤ counts a)) := by
  induction l generalizing b with
  | nil => exact Or.inl ⟨rfl, by simp⟩
  | cons y ys ih =>
    by_cases hy : counts y < counts b
    · have hstep : (y :: ys).foldl
          (fun minId id => if counts id < counts minId then id else minId) b =
          ys.foldl (fun minId id => if counts id < counts minId then id else minId) y := by
        simp [List.foldl_cons, if_pos hy]
      rcases ih y with ⟨heq, hall⟩ | ⟨l₁, x, l₂, hdec, heq, hlt, hpre, hpost⟩
      · refine Or.inr ⟨[], y, ys, by simp, ?_, hy, by simp, hall⟩
        rw [hstep, heq]
      · refine Or.inr ⟨y :: l₁, x, l₂, by simp [hdec], ?_, lt_trans hlt hy, ?_, hpost⟩
        · rw [hstep, heq]
        · intro a ha
          rcases List.mem_cons.mp ha with rfl | ha
          · exact hlt
          · exact hpre a ha
    · have hstep : (y :: ys).foldl
          (fun minId id => if counts id < counts minId then id else minId) b =
          ys.foldl (fun minId id => if counts id < counts minId then id else minId) b := by
        simp [List.foldl_cons, if_neg hy]
      push_neg at hy
      rcases ih b with ⟨heq, hall⟩ | ⟨l₁, x, l₂, hdec, heq, hlt, hpre, hpost⟩
      · refine Or.inl ⟨?_, ?_⟩
        · rw [hstep, heq]
        · intro a ha
          rcases List.mem_cons.mp ha with rfl | ha
          · exact hy
          · exact hall a ha
      · refine Or.inr ⟨y :: l₁, x, l₂, by simp [hdec], ?_, hlt, ?_, hpost⟩
        · rw [hstep, heq]
        · intro a ha
          rcases List.mem_cons.mp ha with rfl | ha
          · exact lt_of_lt_of_le hlt hy
          · exact hpre a ha

/-- The selected holder sits at a position before which every holder has a
strictly larger count and from which on every holder has a count at least
as large: the first position achieving the minimum. -/
theorem pickLeastLoaded_first_min {α : Type} (counts : α → Nat)
    (ids : List α) (r : α) (h : pickLeastLoaded counts ids = some r) :
    ∃ pre post, ids = pre ++ r :: post ∧
      (∀ a ∈ pre, counts r < counts a) ∧
      (∀ a ∈ post, counts r ≤ counts a) := by
  match ids, h with
  | h0 :: t, h =>
    have hfold' : t.foldl
        (fun minId id => if counts id < counts minId then id else minId) h0 = r := by
      have hfold : (h0 :: t).foldl
          (fun minId id => if counts id < counts minId then id else minId) h0 = r := by
        simpa [pickLeastLoaded] using h
      rw [← hfold]
      simp [List.foldl_cons]
    rcases foldl_min_decomp counts t h0 with ⟨heq, hall⟩ | ⟨l₁, x, l₂, hdec, heq, hlt, hpre, hpost⟩
    · rw [hfold'] at heq
      subst heq
      exact ⟨[], t, by simp, by simp, hall⟩
    · rw [hfold'] at heq
      subst heq
      refine ⟨h0 :: l₁, l₂, by simp [hdec], ?_, hpost⟩
      intro a ha
      rcases List.mem_cons.mp ha with rfl | ha
      · exact hlt
      · exact hpre a ha

/-!
## Aggregate Mutation Orchestrator: datastore model

Tables touched by `createProperty` / `updateProperty`
(`src/controllers/property.js`, Sales-balancer variant) and
`assignProperty` (`src/controllers/admin.js`).  A property row is stored as
the object built by the controller (`propertyData`); the generated primary
key is kept alongside.
-/

/-- A `users` row (the fields the property controllers consult). -/
structure UserRow where
  userId : Nat
  isActive : Bool
deriving DecidableEq, Repr

/-- An `amenities` row. -/
structure AmenityRow where
  amenityId : Nat
  isActive : Bool
deriving DecidableEq, Repr

/-- A `caretakers` row. -/
structure CaretakerRow where
  caretakerId : Nat
  isActive : Bool
deriving DecidableEq, Repr

/-- A `property_media` row. -/
structure MediaRow where
  propertyId : Nat
  mediaType : String
  fileUrl : String
deriving DecidableEq, Repr

/-- A `property_connectivity` row. -/
structure ConnRow where
  propertyId : Nat
  connectivityType : Value
  name : Value
  distanceKm : Value
deriving DecidableEq, Repr

/-- A `property_certifications` row. -/
structure CertRow where
  propertyId : Nat
  certificationType : String
  certificationDetails : Value
deriving DecidableEq, Repr

/-- The audit payload written for a property UPDATE: the changed-field
deltas from `buildUpdateValues` plus the array-valued and metadata entries
the controller adds (`amenityIds`, `mediaAdded`, `updatedBy`). -/
structure UpdateAudit where
  oldValues : Obj
  newValues : Obj
  oldAmenityIds : Option (List Nat)
  newAmenityIds : Option (List Nat)
  mediaAdded : Option Nat
  updatedBy : Option String
  assignedBy : Option Nat
deriving DecidableEq, Repr

/-- The old/new content of an `audit_logs` row: INSERT stores the full new
record (old value null), UPDATE stores the delta payload. -/
inductive AuditPayload where
  | insert (newRecord : Obj)
  | update (delta : UpdateAudit)
deriving DecidableEq, Repr

/-- An `audit_logs` row. -/
structure AuditRow where
  userId : Nat
  operation : String
  entityType : String
  recordId : Nat
  payload : AuditPayload
  tableName : String
  ipAddress : Value
  userAgent : Value
deriving DecidableEq, Repr

/-- The datastore touched by the property flows. -/
structure PropDb where
  users : List UserRow
  roles : List RoleRow
  userRoles : List (Nat × Nat)
  amenities : List AmenityRow
  caretakers : List CaretakerRow
  properties : List (Nat × Obj)
  propertyAmenities : List (Nat × Nat)
  propertyMedia : List MediaRow
  propertyConnectivity : List ConnRow
  propertyCertifications : List CertRow
  auditLogs : List AuditRow
deriving DecidableEq, Repr

/-- An application error (`createAppError(message, statusCode)`). -/
structure AppError where
  message : String
  statusCode : Nat
deriving DecidableEq, Repr

/-- `validateRequiredFields` (`src/utils/validators.js`): the listed fields
whose value in the body is falsy. -/
def validateRequiredFields (fields : List String) (data : Obj) : List String :=
  fields.filter (fun field => !truthy (getField data field))

/-- One uploaded file as the controllers see it after the upload
middleware. -/
structure FileInput where
  mimetype : String
  gcsPath : String
deriving DecidableEq, Repr

/-- One `connectivityDetails` entry of the request body. -/
structure ConnInput where
  connectivityType : Value
  name : Value
  distanceKm : Value
deriving DecidableEq, Repr

/-- The `certifications` object of the request body.  `others` is the
array-valued entry, `none` when absent. -/
structure CertInput where
  rera : Value
  leed : Value
  igbc : Value
  others : Option (List String)
deriving DecidableEq, Repr

/-- A `createProperty` request.  `body` carries the flat scalar fields; the
array/object-valued entries the controller destructures (`amenityIds`,
`caretakerId`, `connectivityDetails`, `certifications`) and the uploaded
files are typed fields (`none`/empty modelling an absent or null, hence
falsy, entry). -/
structure CreateReq where
  userId : Nat
  body : Obj
  amenityIds : Option (List Nat)
  caretakerId : Option Nat
  connectivityDetails : Option (List ConnInput)
  certifications : Option CertInput
  files : List FileInput
  ip : Value
  userAgent : Value
deriving DecidableEq, Repr

/-- `parseFloat` restricted to the integer-valued inputs this model covers
(`none` plays the role of `NaN`).  Fractional values are outside the model;
no verified claim depends on them. -/
def parseFloatV : Value → Option Int
  | .vNum n => some n
  | .vStr s => s.toInt?
  | _ => none

/-- `parseFloat(propertyTaxAnnual || 0) + parseFloat(insuranceAnnual || 0) +
parseFloat(otherCostsAnnual || 0) || null`: a `NaN` anywhere, or a zero sum,
falls through `|| null`. -/
def totalOperatingCosts (a b c : Value) : Value :=
  match parseFloatV (jsOr a (.vNum 0)), parseFloatV (jsOr b (.vNum 0)),
      parseFloatV (jsOr c (.vNum 0)) with
  | some x, some y, some z =>
      if x + y + z = 0 then .vNull else .vNum (x + y + z)
  | _, _, _ => .vNull

/-- The `propertyData` object assembled inside the create transaction
(`src/controllers/property.js`): every field with its `|| default`
translation, then the role-dependent owner/broker assignment, then the
balancer assignment when one was made. -/
def buildPropertyData (body : Obj) (caretakerId : Option Nat)
    (userRole : String) (userId : Nat) (assignedSalesId : Option Nat) : Obj :=
  let g := getField body
  let base : Obj := [
    ("propertyType", jsOr (g "propertyType") .vNull),
    ("carpetArea", jsOr (g "carpetAreaSqft") .vNull),
    ("carpetAreaUnit", jsOr (g "carpetAreaUnit") (.vStr "Sq. Feet")),
    ("completionYear", jsOr (g "completionYear") .vNull),
    ("lastRefurbishedYear", jsOr (g "lastRefurbished") .vNull),
    ("ownershipType", jsOr (g "ownershipType") .vNull),
    ("buildingGrade", jsOr (g "buildingGrade") .vNull),
    ("parkingFourWheeler", jsOr (g "parkingSlots") (.vNum 0)),
    ("parkingTwoWheeler", jsOr (g "parkingRatio") (.vNum 0)),
    ("powerBackup", jsOr (g "powerBackupKva") .vNull),
    ("numberOfLifts", jsOr (g "numberOfLifts") .vNull),
    ("hvacType", jsOr (g "hvacType") .vNull),
    ("furnishingStatus", jsOr (g "furnishingStatus") .vNull),
    ("maintainedById", match caretakerId with
      | some cid => .vNum cid
      | none => .vNull),
    ("titleStatus", jsOr (g "titleStatus") .vNull),
    ("occupancyCertificate", jsOr (g "occupancyCertificate") .vNull),
    ("leaseRegistration", jsOr (g "leaseRegistration") .vNull),
    ("hasPendingLitigation",
      if g "hasPendingLitigation" ≠ .vUndefined then g "hasPendingLitigation"
      else .vBool false),
    ("litigationDetails", jsOr (g "litigationDetails") .vNull),
    ("reraNumber", jsOr (g "reraNumber") .vNull),
    ("tenantType", jsOr (g "tenantType") .vNull),
    ("leaseStartDate", jsOr (g "leaseStartDate") .vNull),
    ("leaseEndDate", jsOr (g "leaseEndDate") .vNull),
    ("lockInPeriodYears", jsOr (g "lockInPeriodYears") .vNull),
    ("lockInPeriodMonths", jsOr (g "lockInPeriodMonths") .vNull),
    ("leaseDurationYears", jsOr (g "leaseDurationYears") .vNull),
    ("rentType", jsOr (g "rentType") (.vStr "Per Sq Ft")),
    ("rentPerSqftMonthly", jsOr (g "rentPerSqftMonthly") .vNull),
    ("totalMonthlyRent", jsOr (g "totalMonthlyRent") .vNull),
    ("securityDepositType", jsOr (g "securityDepositType") (.vStr "Months of Rent")),
    ("securityDepositMonths", jsOr (g "securityDepositMonths") .vNull),
    ("securityDepositAmount", jsOr (g "securityDepositAmount") .vNull),
    ("escalationFrequencyYears", jsOr (g "escalationFrequencyYears") .vNull),
    ("annualEscalationPercent", jsOr (g "annualEscalationPercent") .vNull),
    ("maintenanceCostsIncluded", jsOr (g "maintenanceCostsIncluded") .vNull),
    ("maintenanceType", jsOr (g "maintenanceType") .vNull),
    ("maintenanceAmount", jsOr (g "maintenanceAmount") .vNull),
    ("microMarket", jsOr (g "microMarket") .vNull),
    ("city", g "city"),
    ("state", g "state"),
    ("demandDrivers", jsOr (g "demandDrivers") .vNull),
    ("upcomingDevelopments", jsOr (g "upcomingDevelopments") .vNull),
    ("description", jsOr (g "description") .vNull),
    ("additionalDescription", jsOr (g "otherAmenities") .vNull),
    ("sellingPrice", jsOr (g "sellingPrice") .vNull),
    ("propertyTaxAnnual", jsOr (g "propertyTaxAnnual") .vNull),
    ("insuranceAnnual", jsOr (g "insuranceAnnual") .vNull),
    ("otherCostsAnnual", jsOr (g "otherCostsAnnual") .vNull),
    ("totalOperatingAnnualCosts",
      totalOperatingCosts (g "propertyTaxAnnual") (g "insuranceAnnual")
        (g "otherCostsAnnual")),
    ("additionalIncomeAnnual", jsOr (g "additionalIncomeAnnual") .vNull),
    ("annualGrossRent", jsOr (g "annualGrossRent") .vNull),
    ("grossRentalYield", jsOr (g "grossRentalYield") .vNull),
    ("netRentalYield", jsOr (g "netRentalYield") .vNull),
    ("paybackPeriodYears", jsOr (g "paybackPeriodYears") .vNull),
    ("isActive", .vBool true)]
  let withOwner :=
    if userRole == "Owner" then
      base ++ [("ownerId", .vNum userId), ("brokerId", .vNull)]
    else if userRole == "Broker" then
      base ++ [("brokerId", .vNum userId), ("ownerId", .vNull)]
    else base
  match assignedSalesId with
  | some sid => withOwner ++ [("salesId", .vNum sid)]
  | none => withOwner

/-- The user's active roles: the `include` of the user lookup (`roles`
joined through `user_roles`, restricted to `isActive: true`), in roles-table
order. -/
def activeRolesOf (db : PropDb) (uid : Nat) : List RoleRow :=
  db.roles.filter (fun r => r.isActive && db.userRoles.contains (uid, r.roleId))

/-- The active users holding the active "Sales" role, in users-table order
(the balancer's enumeration). -/
def salesUsersOf (db : PropDb) : List Nat :=
  (db.users.filter (fun u => u.isActive &&
    db.roles.any (fun r => r.roleName == "Sales" && r.isActive &&
      db.userRoles.contains (u.userId, r.roleId)))).map (fun u => u.userId)

/-- A Sales holder's current count of active assigned properties
(`COUNT(property_id) GROUP BY salesId` over `isActive: true`, with
`countMap[id] || 0` for holders with no row). -/
def activePropCount (db : PropDb) (uid : Nat) : Nat :=
  (db.properties.filter (fun pr =>
    getField pr.2 "salesId" == Value.vNum uid &&
      getField pr.2 "isActive" == Value.vBool true)).length

/-- The per-entry `connectivityDetails` validation loop: first entry without
a truthy `connectivityType`, or with a truthy non-numeric `distanceKm`,
raises the indexed 400. -/
def validateConnectivity : Nat → List ConnInput → Option AppError
  | _, [] => none
  | i, conn :: rest =>
    if !truthy conn.connectivityType then
      some ⟨"Connectivity entry " ++ toString (i + 1) ++
        ": connectivityType is required", 400⟩
    else if truthy conn.distanceKm && (parseFloatV conn.distanceKm).isNone then
      some ⟨"Connectivity entry " ++ toString (i + 1) ++
        ": distanceKm must be a number", 400⟩
    else validateConnectivity (i + 1) rest

/-- Media rows created for the uploaded files. -/
def mediaRowsFor (pid : Nat) (files : List FileInput) : List MediaRow :=
  files.map (fun file =>
    ⟨pid, if file.mimetype.startsWith "video/" then "video" else "photo",
      file.gcsPath⟩)

/-- Connectivity rows created for the request entries. -/
def connRowsFor (pid : Nat) (conns : List ConnInput) : List ConnRow :=
  conns.map (fun conn =>
    ⟨pid, conn.connectivityType, jsOr conn.name .vNull,
      if truthy conn.distanceKm then
        match parseFloatV conn.distanceKm with
        | some n => .vNum n
        | none => .vNull
      else .vNull⟩)

/-- Certification rows: the predefined RERA/LEED/IGBC flags compared with
`=== true`, then the `others` entries with their original array index and
trimmed non-blank text. -/
def certRowsFor (pid : Nat) (certifications : Option CertInput) : List CertRow :=
  match certifications with
  | none => []
  | some cert =>
    ((if cert.rera == Value.vBool true then [(⟨pid, "RERA", .vNull⟩ : CertRow)] else []) ++
     (if cert.leed == Value.vBool true then [(⟨pid, "LEED", .vNull⟩ : CertRow)] else []) ++
     (if cert.igbc == Value.vBool true then [(⟨pid, "IGBC", .vNull⟩ : CertRow)] else [])) ++
    (match cert.others with
     | some others =>
        others.enum.filterMap (fun p =>
          if p.2.trim ≠ "" then
            some (⟨pid, "OTHER_" ++ toString (p.1 + 1), .vStr p.2.trim⟩ : CertRow)
          else none)
     | none => [])

/-- The `newRecord` object passed to the audit `logInsert` for a created
property (including the source's reads of `carpetAreaSqft` and
`caretakerId`, attributes the created row does not carry, which therefore
log as absent). -/
def createAuditNewRecord (pid : Nat) (pdata : Obj) (userRole : String)
    (amenityIds : Option (List Nat)) (mediaCount connectivityCount
    certificationCount : Nat) : Obj :=
  [("propertyId", .vNum pid),
   ("city", getField pdata "city"),
   ("state", getField pdata "state"),
   ("propertyType", getField pdata "propertyType"),
   ("carpetAreaSqft", getField pdata "carpetAreaSqft"),
   ("ownershipType", getField pdata "ownershipType"),
   ("buildingGrade", getField pdata "buildingGrade"),
   ("ownerId", getField pdata "ownerId"),
   ("brokerId", getField pdata "brokerId"),
   ("salesId", getField pdata "salesId"),
   ("caretakerId", getField pdata "caretakerId"),
   ("createdBy", .vStr userRole),
   ("amenityCount", .vNum (match amenityIds with
     | some ids => (ids.length : Int)
     | none => 0)),
   ("mediaCount", .vNum mediaCount),
   ("connectivityCount", .vNum connectivityCount),
   ("certificationCount", .vNum certificationCount)]

/-- The response data of a successful create. -/
structure CreateResult where
  propertyId : Nat
  createdByRole : String
  amenityCount : Nat
  mediaCount : Nat
  connectivityCount : Nat
  certificationCount : Nat
deriving DecidableEq, Repr

/-- The body of the create transaction: root insert, amenity link rows,
media, connectivity and certification child rows, and the audit INSERT row,
applied together to the datastore. -/
def createTxn (db : PropDb) (req : CreateReq) (newPropId : Nat)
    (userRole : String) (assignedSalesId : Option Nat) :
    PropDb × CreateResult :=
  let pdata := buildPropertyData req.body req.caretakerId userRole req.userId
    assignedSalesId
  let links := match req.amenityIds with
    | some ids => ids.map (fun a => (newPropId, a))
    | none => []
  let media := mediaRowsFor newPropId req.files
  let conns := match req.connectivityDetails with
    | some cds => connRowsFor newPropId cds
    | none => []
  let certs := certRowsFor newPropId req.certifications
  let audit : AuditRow :=
    { userId := req.userId, operation := "INSERT", entityType := "Property",
      recordId := newPropId,
      payload := .insert (createAuditNewRecord newPropId pdata userRole
        req.amenityIds media.length conns.length certs.length),
      tableName := "properties", ipAddress := req.ip,
      userAgent := req.userAgent }
  ({ db with
      properties := db.properties ++ [(newPropId, pdata)],
      propertyAmenities := db.propertyAmenities ++ links,
      propertyMedia := db.propertyMedia ++ media,
      propertyConnectivity := db.propertyConnectivity ++ conns,
      propertyCertifications := db.propertyCertifications ++ certs,
      auditLogs := db.auditLogs ++ [audit] },
   { propertyId := newPropId, createdByRole := userRole,
     amenityCount := match req.amenityIds with
       | some ids => ids.length
       | none => 0,
     mediaCount := media.length, connectivityCount := conns.length,
     certificationCount := certs.length })

/-- The amenity reference check: some requested amenity id has no active
`amenities` row (the count of valid rows differs from the request count). -/
def amenityCheckOf (amenities : List AmenityRow)
    (amenityIds : Option (List Nat)) : Bool :=
  match amenityIds with
  | none => false
  | some ids => decide (0 < ids.length) &&
      ((amenities.filter (fun a =>
        ids.contains a.amenityId && a.isActive)).length != ids.length)

/-- The update path's caretaker check: fails when the body carries a
non-null `caretakerId` with no active `caretakers` row. -/
def caretakerCheckOf (caretakers : List CaretakerRow) (v : Value) : Bool :=
  if v == Value.vUndefined then false
  else if v == Value.vNull then false
  else !(match v with
    | .vNum cid => caretakers.any (fun ct =>
        ct.caretakerId == cid && ct.isActive)
    | _ => false)

/-- `createProperty` (Sales-balancer variant): required-field check, actor
lookup with active roles, caretaker and amenity reference validation,
connectivity shape validation, balancer selection, then the transaction.
A thrown error anywhere rolls the transaction back; modelled by the
`Except`: on `.error` the caller's datastore is unchanged. -/
def createProperty (db : PropDb) (req : CreateReq) (newPropId : Nat) :
    Except AppError (PropDb × CreateResult) :=
  let missing := validateRequiredFields ["city", "state"] req.body
  if !missing.isEmpty then
    .error ⟨"Missing required fields: " ++ String.intercalate ", " missing, 400⟩
  else
    match db.users.find? (fun u => u.userId == req.userId && u.isActive) with
    | none => .error ⟨"User not found or inactive", 404⟩
    | some _ =>
      match activeRolesOf db req.userId with
      | [] => .error ⟨"User not found or inactive", 404⟩
      | role0 :: _ =>
        let userRole := role0.roleName
        let caretakerOk := match req.caretakerId with
          | none => true
          | some cid => db.caretakers.any (fun ct =>
              ct.caretakerId == cid && ct.isActive)
        if !caretakerOk then .error ⟨"Invalid caretaker ID", 400⟩
        else
          if amenityCheckOf db.amenities req.amenityIds then
            .error ⟨"One or more invalid amenity IDs provided", 400⟩
          else
            match (match req.connectivityDetails with
              | none => none
              | some cds => validateConnectivity 0 cds) with
            | some e => .error e
            | none =>
              let assignedSalesId :=
                pickLeastLoaded (activePropCount db) (salesUsersOf db)
              .ok (createTxn db req newPropId userRole assignedSalesId)

/-- Writing one attribute of a record object: replace an existing binding,
append a fresh one. -/
def setField (o : Obj) (k : String) (v : Value) : Obj :=
  if o.any (fun kv => kv.1 == k) then
    o.map (fun kv => if kv.1 == k then (k, v) else kv)
  else o ++ [(k, v)]

/-- `record.update(updateData)`: assign every binding of the patch onto the
record. -/
def objAssign (o : Obj) (upd : Obj) : Obj :=
  upd.foldl (fun acc kv => setField acc kv.1 kv.2) o

/-- The request-body keys `updateProperty` destructures away before
building `updateData` (the rest pattern
`{ ownerId, brokerId, propertyId, amenityIds, caretakerId, ...updateData }`). -/
def protectedKeys : List String :=
  ["ownerId", "brokerId", "propertyId", "amenityIds", "caretakerId"]

/-- The rest of the body after the protected destructuring. -/
def updateDataBase (body : Obj) : Obj :=
  body.filter (fun kv => !protectedKeys.contains kv.1)

/-- The patch `updateProperty` actually applies: the destructured rest of
the body, plus `caretakerId` when the body carried one (even null). -/
def updateDataOf (body : Obj) : Obj :=
  updateDataBase body ++
    (if getField body "caretakerId" != Value.vUndefined then
      [("caretakerId", getField body "caretakerId")]
     else [])

/-- The response data of a successful update. -/
structure UpdateResult where
  propertyId : Nat
  updatedBy : String
  updatedFields : List String
  newMediaCount : Nat
  amenitiesUpdated : Bool
  warnedProtected : Bool
deriving DecidableEq, Repr

/-- An `updateProperty` request.  `userRole` is the primary role attached by
the permission middleware; `amenityIds` is the destructured array entry
(`none` when absent or null, hence falsy). -/
structure UpdateReq where
  userId : Nat
  userRole : String
  propertyId : Nat
  body : Obj
  amenityIds : Option (List Nat)
  files : List FileInput
  ip : Value
  userAgent : Value
deriving DecidableEq, Repr

/-- The body of the update transaction: field update on the found row,
wholesale amenity replacement, media inserts, and the audit UPDATE row. -/
def updateTxn (db : PropDb) (req : UpdateReq) (pid : Nat) (oldRecord : Obj)
    (warned : Bool) : PropDb × UpdateResult :=
  let userRole := req.userRole
  let updateData := updateDataOf req.body
  let newRecord := objAssign oldRecord updateData
  let oldAmenityIds :=
    (db.propertyAmenities.filter (fun l => l.1 == pid)).map Prod.snd
  let newLinks := match req.amenityIds with
    | some ids => db.propertyAmenities.filter (fun l => l.1 != pid) ++
        ids.map (fun a => (pid, a))
    | none => db.propertyAmenities
  let newMedia := mediaRowsFor pid req.files
  let bu := buildUpdateValues oldRecord updateData
  let audit : AuditRow :=
    { userId := req.userId, operation := "UPDATE",
      entityType := "Property", recordId := pid,
      payload := .update
        { oldValues := bu.1, newValues := bu.2,
          oldAmenityIds := match req.amenityIds with
            | some _ => some oldAmenityIds
            | none => none,
          newAmenityIds := req.amenityIds,
          mediaAdded := if 0 < newMedia.length then some newMedia.length
            else none,
          updatedBy := some userRole, assignedBy := none },
      tableName := "properties", ipAddress := req.ip,
      userAgent := req.userAgent }
  ({ db with
      properties := db.properties.map (fun pr =>
        if pr.1 == pid then (pid, newRecord) else pr),
      propertyAmenities := newLinks,
      propertyMedia := db.propertyMedia ++ newMedia,
      auditLogs := db.auditLogs ++ [audit] },
   { propertyId := pid, updatedBy := userRole,
     updatedFields := updateData.map Prod.fst,
     newMediaCount := newMedia.length,
     amenitiesUpdated := req.amenityIds.isSome,
     warnedProtected := warned })

/-- `updateProperty` (`src/controllers/property.js` lines 460–688): scoped
lookup (`ownerId`/`brokerId` match for Owner/Broker, unrestricted
otherwise) answering 404 on a miss; protected fields destructured out of
the patch with only a warning; caretaker and amenity reference validation;
"No fields to update" when nothing would change; then one transaction:
field update, wholesale amenity replacement, media inserts, and the audit
UPDATE row from `buildUpdateValues` plus the amenity/media/metadata
entries. -/
def updateProperty (db : PropDb) (req : UpdateReq) :
    Except AppError (PropDb × UpdateResult) :=
  let userRole := req.userRole
  match db.properties.find? (fun pr => pr.1 == req.propertyId &&
      getField pr.2 "isActive" == Value.vBool true &&
      (if userRole == "Owner" then
        getField pr.2 "ownerId" == Value.vNum req.userId
       else if userRole == "Broker" then
        getField pr.2 "brokerId" == Value.vNum req.userId
       else true)) with
  | none =>
    .error ⟨"Property not found or you don't have permission to update it", 404⟩
  | some (pid, oldRecord) =>
    if caretakerCheckOf db.caretakers (getField req.body "caretakerId") then
      .error ⟨"Invalid caretaker ID", 400⟩
    else
      let updateData := updateDataOf req.body
      if amenityCheckOf db.amenities req.amenityIds then
        .error ⟨"One or more invalid amenity IDs provided", 400⟩
      else
        let warned := truthy (getField req.body "ownerId") ||
          truthy (getField req.body "propertyId") ||
          truthy (getField req.body "brokerId")
        if updateData.isEmpty && req.files.isEmpty && req.amenityIds.isNone then
          .error ⟨"No fields to update", 400⟩
        else
          .ok (updateTxn db req pid oldRecord warned)

/-- The body of the assignment transaction: `salesId` overwrite and the
audit UPDATE row. -/
def assignTxn (db : PropDb) (actorId : Nat) (pid : Nat) (oldRecord : Obj)
    (uid : Nat) (ip userAgent : Value) : PropDb × Nat :=
  let updateData : Obj := [("salesId", .vNum uid)]
  let newRecord := objAssign oldRecord updateData
  let bu := buildUpdateValues oldRecord updateData
  let audit : AuditRow :=
    { userId := actorId, operation := "UPDATE",
      entityType := "Property", recordId := pid,
      payload := .update
        { oldValues := bu.1, newValues := bu.2,
          oldAmenityIds := none, newAmenityIds := none,
          mediaAdded := none, updatedBy := none,
          assignedBy := some actorId },
      tableName := "properties", ipAddress := ip,
      userAgent := userAgent }
  ({ db with
      properties := db.properties.map (fun pr =>
        if pr.1 == pid then (pid, newRecord) else pr),
      auditLogs := db.auditLogs ++ [audit] },
   pid)

/-- `assignProperty` (`src/controllers/admin.js` lines 734–856): validates
the property (active) and the target user (active, with an active role via
the join), then inside one transaction overwrites `salesId` and writes the
audit UPDATE row. -/
def assignProperty (db : PropDb) (actorId : Nat) (propertyId : Nat)
    (targetUserId : Option Nat) (ip userAgent : Value) :
    Except AppError (PropDb × Nat) :=
  match targetUserId with
  | none => .error ⟨"userId is required", 400⟩
  | some uid =>
    match db.properties.find? (fun pr => pr.1 == propertyId &&
        getField pr.2 "isActive" == Value.vBool true) with
    | none => .error ⟨"Property not found", 404⟩
    | some (pid, oldRecord) =>
      if !(db.users.any (fun u => u.userId == uid && u.isActive) &&
          !(activeRolesOf db uid).isEmpty) then
        .error ⟨"Target user not found or inactive", 404⟩
      else
        .ok (assignTxn db actorId pid oldRecord uid ip userAgent)

/-- The observable outcome of one create request against the datastore:
the transaction's rollback-on-error leaves the datastore untouched when the
operation fails. -/
def runCreate (db : PropDb) (req : CreateReq) (newPropId : Nat) :
    PropDb × Except AppError CreateResult :=
  match createProperty db req newPropId with
  | .ok (db2, r) => (db2, .ok r)
  | .error e => (db, .error e)

theorem lookup_cons (a k : String) (v : Value) (l : Obj) :
    List.lookup a ((k, v) :: l) =
      if (a == k) = true then some v else List.lookup a l := by
  cases h : a == k with
  | true => simp [List.lookup, h]
  | false => simp [List.lookup, h]

theorem beq_symm_false (a b : String) (h : (a == b) = false) :
    (b == a) = false := by
  rw [beq_eq_false_iff_ne] at h ⊢
  exact fun e => h e.symm

theorem lookup_isSome_iff_any (o : Obj) (k : String) :
    (o.lookup k).isSome = o.any (fun kv => kv.1 == k) := by
  induction o with
  | nil => rfl
  | cons kv rest ih =>
    obtain ⟨k0, v0⟩ := kv
    rw [lookup_cons, List.any_cons]
    cases hk : k0 == k with
    | true =>
      have hk' : (k == k0) = true := by
        rw [beq_iff_eq] at hk ⊢
        exact hk.symm
      rw [if_pos hk']
      simp [hk]
    | false =>
      have hk' : (k == k0) = false := beq_symm_false k0 k hk
      rw [if_neg (by simp [hk'])]
      simp [hk, ih]

theorem lookup_map_keyReplace (o : Obj) (k : String) (v : Value) :
    ((o.map (fun kv => if kv.1 == k then (k, v) else kv)).lookup k) =
      (o.lookup k).map (fun _ => v) := by
  induction o with
  | nil => rfl
  | cons kv rest ih =>
    obtain ⟨k0, v0⟩ := kv
    rw [List.map_cons]
    cases hk : k0 == k with
    | true =>
      have hke : k0 = k := beq_iff_eq.mp hk
      subst hke
      rw [if_pos (show (true : Bool) = true from rfl)]
      rw [lookup_cons, lookup_cons]
      rw [if_pos (by simp), if_pos (by simp)]
      rfl
    | false =>
      have hk' : (k == k0) = false := beq_symm_false k0 k hk
      rw [if_neg (show ¬ ((false : Bool) = true) by simp)]
      rw [lookup_cons, lookup_cons]
      rw [if_neg (by simp [hk']), if_neg (by simp [hk'])]
      exact ih

theorem lookup_map_keyReplace_ne (o : Obj) (k k' : String) (v : Value)
    (h : k' ≠ k) :
    ((o.map (fun kv => if kv.1 == k then (k, v) else kv)).lookup k') =
      o.lookup k' := by
  induction o with
  | nil => rfl
  | cons kv rest ih =>
    obtain ⟨k0, v0⟩ := kv
    rw [List.map_cons]
    cases hk : k0 == k with
    | true =>
      have hke : k0 = k := beq_iff_eq.mp hk
      subst hke
      have h1 : (k' == k0) = false := beq_eq_false_iff_ne.mpr h
      rw [if_pos (show (true : Bool) = true from rfl)]
      rw [lookup_cons, lookup_cons]
      rw [if_neg (by simp [h1]), if_neg (by simp [h1])]
      exact ih
    | false =>
      rw [if_neg (show ¬ ((false : Bool) = true) by simp)]
      rw [lookup_cons, lookup_cons]
      cases hk2 : k' == k0 with
      | true => rw [if_pos (by simp), if_pos (by simp)]
      | false =>
        rw [if_neg (by simp [hk2]), if_neg (by simp [hk2])]
        exact ih

theorem getField_setField_self (o : Obj) (k : String) (v : Value) :
    getField (setField o k v) k = v := by
  unfold setField getField
  by_cases h : (o.any (fun kv => kv.1 == k)) = true
  · rw [if_pos h, lookup_map_keyReplace]
    have hs : (o.lookup k).isSome = true := by rw [lookup_isSome_iff_any, h]
    cases hl : o.lookup k with
    | none => rw [hl] at hs; cases hs
    | some w => simp
  · rw [if_neg h]
    have hn : o.lookup k = none := by
      cases hl : o.lookup k with
      | none => rfl
      | some w =>
        have hs : (o.lookup k).isSome = true := by rw [hl]; rfl
        rw [lookup_isSome_iff_any] at hs
        exact absurd hs h
    rw [List.lookup_append, hn]
    rw [lookup_cons]
    rw [if_pos (by simp)]
    rfl

theorem getField_setField_ne (o : Obj) (k k' : String) (v : Value)
    (h : k' ≠ k) :
    getField (setField o k v) k' = getField o k' := by
  unfold setField getField
  by_cases hc : (o.any (fun kv => kv.1 == k)) = true
  · rw [if_pos hc, lookup_map_keyReplace_ne o k k' v h]
  · rw [if_neg hc, List.lookup_append]
    cases hl : o.lookup k' with
    | some w => rfl
    | none =>
      have h1 : (k' == k) = false := beq_eq_false_iff_ne.mpr h
      rw [lookup_cons, if_neg (by simp [h1])]
      rfl

theorem getField_objAssign_not_mem (o upd : Obj) (k : String)
    (h : k ∉ upd.map Prod.fst) :
    getField (objAssign o upd) k = getField o k := by
  induction upd generalizing o with
  | nil => rfl
  | cons kv rest ih =>
    simp only [List.map_cons, List.mem_cons, not_or] at h
    unfold objAssign
    simp only [List.foldl_cons]
    rw [show rest.foldl (fun acc kv => setField acc kv.1 kv.2)
        (setField o kv.1 kv.2) = objAssign (setField o kv.1 kv.2) rest from rfl]
    rw [ih (setField o kv.1 kv.2) h.2]
    exact getField_setField_ne o kv.1 k kv.2 h.1

theorem getField_objAssign_mem (o upd : Obj) (k : String) (v : Value)
    (hnd : (upd.map Prod.fst).Nodup) (h : (k, v) ∈ upd) :
    getField (objAssign o upd) k = v := by
  induction upd generalizing o with
  | nil => cases h
  | cons kv rest ih =>
    simp only [List.map_cons, List.nodup_cons] at hnd
    unfold objAssign
    simp only [List.foldl_cons]
    rw [show rest.foldl (fun acc kv => setField acc kv.1 kv.2)
        (setField o kv.1 kv.2) = objAssign (setField o kv.1 kv.2) rest from rfl]
    rcases List.mem_cons.mp h with heq | hmem
    · subst heq
      rw [getField_objAssign_not_mem _ rest k hnd.1]
      exact getField_setField_self o k v
    · exact ih (setField o kv.1 kv.2) hnd.2 hmem

/-- The actor's primary role: the first of their active roles. -/
def primaryRoleOf (db : PropDb) (uid : Nat) : Option String :=
  (activeRolesOf db uid).head?.map (fun r => r.roleName)

theorem createProperty_ok_inv (db : PropDb) (req : CreateReq) (id : Nat)
    (x : PropDb × CreateResult) (h : createProperty db req id = .ok x) :
    ∃ role0 rest, activeRolesOf db req.userId = role0 :: rest ∧
      x = createTxn db req id role0.roleName
        (pickLeastLoaded (activePropCount db) (salesUsersOf db)) := by
  unfold createProperty at h
  dsimp only at h
  split at h
  · exact absurd h (by simp)
  · split at h
    · exact absurd h (by simp)
    · split at h
      · exact absurd h (by simp)
      · rename_i role0 rest heq
        split at h
        · exact absurd h (by simp)
        · split at h
          · exact absurd h (by simp)
          · split at h
            · exact absurd h (by simp)
            · exact ⟨role0, rest, heq, (Except.ok.injEq _ _ ▸ h).symm⟩

/-- The scoped lookup predicate of `updateProperty`. -/
def updateScope (req : UpdateReq) (pr : Nat × Obj) : Bool :=
  pr.1 == req.propertyId &&
    getField pr.2 "isActive" == Value.vBool true &&
    (if req.userRole == "Owner" then
      getField pr.2 "ownerId" == Value.vNum req.userId
     else if req.userRole == "Broker" then
      getField pr.2 "brokerId" == Value.vNum req.userId
     else true)

theorem updateProperty_ok_inv (db : PropDb) (req : UpdateReq)
    (x : PropDb × UpdateResult) (h : updateProperty db req = .ok x) :
    ∃ pid oldRecord,
      db.properties.find? (updateScope req) = some (pid, oldRecord) ∧
      pid = req.propertyId ∧
      x = updateTxn db req pid oldRecord
        (truthy (getField req.body "ownerId") ||
          truthy (getField req.body "propertyId") ||
          truthy (getField req.body "brokerId")) := by
  unfold updateProperty at h
  dsimp only at h
  split at h
  · exact absurd h (by simp)
  · rename_i pr pid oldRecord heq
    have hpid : pid = req.propertyId := by
      have hp := List.find?_some heq
      simp only [Bool.and_eq_true, beq_iff_eq] at hp
      exact hp.1.1
    refine ⟨pid, oldRecord, ?_, hpid, ?_⟩
    · exact heq
    · split at h
      · exact absurd h (by simp)
      · split at h
        · exact absurd h (by simp)
        · split at h
          · exact absurd h (by simp)
          · exact (Except.ok.injEq _ _ ▸ h).symm

theorem assignProperty_ok_inv (db : PropDb) (actorId propertyId : Nat)
    (targetUserId : Option Nat) (ip userAgent : Value) (x : PropDb × Nat)
    (h : assignProperty db actorId propertyId targetUserId ip userAgent = .ok x) :
    ∃ uid pid oldRecord, targetUserId = some uid ∧
      db.properties.find? (fun pr => pr.1 == propertyId &&
        getField pr.2 "isActive" == Value.vBool true) = some (pid, oldRecord) ∧
      x = assignTxn db actorId pid oldRecord uid ip userAgent := by
  unfold assignProperty at h
  split at h
  · exact absurd h (by simp)
  · rename_i uid
    split at h
    · exact absurd h (by simp)
    · rename_i pr pid oldRecord heq
      split at h
      · exact absurd h (by simp)
      · exact ⟨uid, pid, oldRecord, rfl, heq, (Except.ok.injEq _ _ ▸ h).symm⟩

theorem buildPropertyData_owner_fields (body : Obj) (ct : Option Nat)
    (uid : Nat) (sid : Option Nat) :
    getField (buildPropertyData body ct "Owner" uid sid) "ownerId" =
        .vNum uid ∧
    getField (buildPropertyData body ct "Owner" uid sid) "brokerId" =
        .vNull := by
  cases sid with
  | none => exact ⟨rfl, rfl⟩
  | some s => exact ⟨rfl, rfl⟩

theorem buildPropertyData_broker_fields (body : Obj) (ct : Option Nat)
    (uid : Nat) (sid : Option Nat) :
    getField (buildPropertyData body ct "Broker" uid sid) "brokerId" =
        .vNum uid ∧
    getField (buildPropertyData body ct "Broker" uid sid) "ownerId" =
        .vNull := by
  cases sid with
  | none => exact ⟨rfl, rfl⟩
  | some s => exact ⟨rfl, rfl⟩

theorem buildPropertyData_other_fields (body : Obj) (ct : Option Nat)
    (role : String) (uid : Nat) (sid : Option Nat)
    (hO : role ≠ "Owner") (hB : role ≠ "Broker") :
    getField (buildPropertyData body ct role uid sid) "ownerId" = .vUndefined ∧
    getField (buildPropertyData body ct role uid sid) "brokerId" = .vUndefined := by
  have h1 : (role == "Owner") = false := beq_eq_false_iff_ne.mpr hO
  have h2 : (role == "Broker") = false := beq_eq_false_iff_ne.mpr hB
  unfold buildPropertyData
  simp only [h1, h2, Bool.false_eq_true, if_false]
  cases sid with
  | none => exact ⟨rfl, rfl⟩
  | some s => exact ⟨rfl, rfl⟩

theorem buildPropertyData_salesId (body : Obj) (ct : Option Nat)
    (role : String) (uid : Nat) :
    (∀ s, getField (buildPropertyData body ct role uid (some s)) "salesId" =
      .vNum s) ∧
    getField (buildPropertyData body ct role uid none) "salesId" = .vUndefined := by
  by_cases hO : role = "Owner"
  · subst hO
    exact ⟨fun s => rfl, rfl⟩
  · by_cases hB : role = "Broker"
    · subst hB
      exact ⟨fun s => rfl, rfl⟩
    · have h1 : (role == "Owner") = false := beq_eq_false_iff_ne.mpr hO
      have h2 : (role == "Broker") = false := beq_eq_false_iff_ne.mpr hB
      unfold buildPropertyData
      simp only [h1, h2, Bool.false_eq_true, if_false]
      exact ⟨fun s => rfl, rfl⟩

theorem buildPropertyData_not_both (body : Obj) (ct : Option Nat)
    (role : String) (uid : Nat) (sid : Option Nat) :
    ¬((getField (buildPropertyData body ct role uid sid) "ownerId" ≠ .vNull ∧
        getField (buildPropertyData body ct role uid sid) "ownerId" ≠ .vUndefined) ∧
      (getField (buildPropertyData body ct role uid sid) "brokerId" ≠ .vNull ∧
        getField (buildPropertyData body ct role uid sid) "brokerId" ≠ .vUndefined)) := by
  by_cases hO : role = "Owner"
  · subst hO
    rintro ⟨-, hb, -⟩
    exact hb (buildPropertyData_owner_fields body ct uid sid).2
  · by_cases hB : role = "Broker"
    · subst hB
      rintro ⟨⟨ho, -⟩, -⟩
      exact ho (buildPropertyData_broker_fields body ct uid sid).2
    · rintro ⟨⟨-, ho⟩, -⟩
      exact ho (buildPropertyData_other_fields body ct role uid sid hO hB).1

theorem key_not_mem_updateDataBase (body : Obj) (k : String)
    (hk : k ∈ protectedKeys) : k ∉ (updateDataBase body).map Prod.fst := by
  intro hmem
  obtain ⟨kv, hkv, rfl⟩ := List.mem_map.mp hmem
  have hf := (List.mem_filter.mp hkv).2
  rw [Bool.not_eq_eq_eq_not, Bool.not_true] at hf
  rw [List.contains_eq_any_beq] at hf
  have : protectedKeys.any (fun x => kv.1 == x) = true :=
    List.any_eq_true.mpr ⟨kv.1, hk, by simp⟩
  rw [this] at hf
  cases hf

theorem key_not_mem_updateDataOf (body : Obj) (k : String)
    (hk : k ∈ protectedKeys) (hck : k ≠ "caretakerId") :
    k ∉ (updateDataOf body).map Prod.fst := by
  unfold updateDataOf
  rw [List.map_append]
  intro hmem
  rcases List.mem_append.mp hmem with hl | hr
  · exact key_not_mem_updateDataBase body k hk hl
  · by_cases hc : (getField body "caretakerId" != Value.vUndefined) = true
    · rw [if_pos hc] at hr
      simp only [List.map_cons, List.map_nil, List.mem_singleton] at hr
      exact hck hr
    · rw [if_neg hc] at hr
      cases hr

theorem updateDataOf_keys_nodup (body : Obj)
    (h : (body.map Prod.fst).Nodup) :
    ((updateDataOf body).map Prod.fst).Nodup := by
  unfold updateDataOf
  rw [List.map_append]
  apply List.Nodup.append
  · exact ((List.filter_sublist body).map Prod.fst).nodup h
  · by_cases hc : (getField body "caretakerId" != Value.vUndefined) = true
    · rw [if_pos hc]; simp
    · rw [if_neg hc]; simp
  · intro a ha hb
    by_cases hc : (getField body "caretakerId" != Value.vUndefined) = true
    · rw [if_pos hc] at hb
      simp only [List.map_cons, List.map_nil, List.mem_singleton] at hb
      subst hb
      exact key_not_mem_updateDataBase body "caretakerId" (by decide) ha
    · rw [if_neg hc] at hb
      cases hb

/-!
## Concrete scenarios
-/

/-- Store for the spec's failing create scenario: one active Owner actor,
amenity 1 active, amenity 2 inactive, and no rows in any property table. -/
def puneDb : PropDb :=
  { users := [⟨7, true⟩], roles := [⟨1, "Owner", true⟩],
    userRoles := [(7, 1)], amenities := [⟨1, true⟩, ⟨2, false⟩],
    caretakers := [], properties := [], propertyAmenities := [],
    propertyMedia := [], propertyConnectivity := [],
    propertyCertifications := [], auditLogs := [] }

/-- The spec's failing create request: `city="Pune"`,
`state="Maharashtra"`, `amenityIds=[1,2]`. -/
def puneReq : CreateReq :=
  { userId := 7,
    body := [("city", .vStr "Pune"), ("state", .vStr "Maharashtra")],
    amenityIds := some [1, 2], caretakerId := none,
    connectivityDetails := none, certifications := none, files := [],
    ip := .vNull, userAgent := .vNull }

/-- Like `puneDb` but with both requested amenities active, so the same
request succeeds. -/
def ownerDb : PropDb :=
  { users := [⟨7, true⟩], roles := [⟨1, "Owner", true⟩],
    userRoles := [(7, 1)], amenities := [⟨1, true⟩, ⟨2, true⟩],
    caretakers := [], properties := [], propertyAmenities := [],
    propertyMedia := [], propertyConnectivity := [],
    propertyCertifications := [], auditLogs := [] }

/-- Store in which the creating actor's primary (first active) role is
"Admin" — neither Owner nor Broker. -/
def adminDb : PropDb :=
  { users := [⟨7, true⟩], roles := [⟨5, "Admin", true⟩],
    userRoles := [(7, 5)], amenities := [], caretakers := [],
    properties := [], propertyAmenities := [], propertyMedia := [],
    propertyConnectivity := [], propertyCertifications := [],
    auditLogs := [] }

/-- A minimal valid create request (required fields only). -/
def adminReq : CreateReq :=
  { userId := 7,
    body := [("city", .vStr "Pune"), ("state", .vStr "Maharashtra")],
    amenityIds := none, caretakerId := none, connectivityDetails := none,
    certifications := none, files := [], ip := .vNull, userAgent := .vNull }

/-- C2 (as stated) fails: with actor 7's primary role "Admin" (granted
`PROPERTY_CREATE`), `createProperty` succeeds and the reachable state holds
a Property row whose `ownerId` and `brokerId` are both unset (NULL
columns) — not exactly one non-null. -/
theorem ownerBroker_bothNull_cex :
    (createProperty adminDb adminReq 100).map (fun x =>
      x.1.properties.map (fun pr =>
        (getField pr.2 "ownerId", getField pr.2 "brokerId"))) =
      .ok [(Value.vUndefined, Value.vUndefined)] := rfl

/-- C2 (amended): `createProperty` sets `ownerId` (with `brokerId` null)
when the actor's primary role is Owner and `brokerId` (with `ownerId`
null) when it is Broker, and leaves both unset for any other primary role;
no reachable row ever has both non-null, and neither `updateProperty` nor
`assignProperty` changes `ownerId`/`brokerId` of any row. -/
theorem ownerBrokerExclusivity_spec :
    ((∀ (db : PropDb) (req : CreateReq) (id : Nat) (db2 : PropDb)
        (r : CreateResult), createProperty db req id = .ok (db2, r) →
        ∃ pdata, db2.properties = db.properties ++ [(id, pdata)] ∧
          (primaryRoleOf db req.userId = some "Owner" →
            getField pdata "ownerId" = .vNum req.userId ∧
            getField pdata "brokerId" = .vNull) ∧
          (primaryRoleOf db req.userId = some "Broker" →
            getField pdata "brokerId" = .vNum req.userId ∧
            getField pdata "ownerId" = .vNull) ∧
          (∀ role, primaryRoleOf db req.userId = some role →
            role ≠ "Owner" → role ≠ "Broker" →
            getField pdata "ownerId" = .vUndefined ∧
            getField pdata "brokerId" = .vUndefined) ∧
          ¬((getField pdata "ownerId" ≠ .vNull ∧
              getField pdata "ownerId" ≠ .vUndefined) ∧
            (getField pdata "brokerId" ≠ .vNull ∧
              getField pdata "brokerId" ≠ .vUndefined))) ∧
     (∀ db req db2 res, updateProperty db req = .ok (db2, res) →
        ∀ pr2 ∈ db2.properties, ∃ pr ∈ db.properties, pr.1 = pr2.1 ∧
          getField pr2.2 "ownerId" = getField pr.2 "ownerId" ∧
          getField pr2.2 "brokerId" = getField pr.2 "brokerId") ∧
     (∀ db actorId propertyId targetUserId ip ua db2 pid,
        assignProperty db actorId propertyId targetUserId ip ua =
          .ok (db2, pid) →
        ∀ pr2 ∈ db2.properties, ∃ pr ∈ db.properties, pr.1 = pr2.1 ∧
          getField pr2.2 "ownerId" = getField pr.2 "ownerId" ∧
          getField pr2.2 "brokerId" = getField pr.2 "brokerId")) := by
  refine ⟨?_, ?_, ?_⟩
  · intro db req id db2 r h
    obtain ⟨role0, rest, hroles, hx⟩ := createProperty_ok_inv db req id (db2, r) h
    have hdb2 : db2 = (createTxn db req id role0.roleName
        (pickLeastLoaded (activePropCount db) (salesUsersOf db))).1 :=
      congrArg Prod.fst hx
    have hprim : primaryRoleOf db req.userId = some role0.roleName := by
      unfold primaryRoleOf
      rw [hroles]
      rfl
    refine ⟨buildPropertyData req.body req.caretakerId role0.roleName
      req.userId (pickLeastLoaded (activePropCount db) (salesUsersOf db)),
      ?_, ?_, ?_, ?_, ?_⟩
    · rw [hdb2]; rfl
    · intro hOwner
      rw [hprim] at hOwner
      have : role0.roleName = "Owner" := by
        simpa using hOwner
      rw [this]
      exact buildPropertyData_owner_fields req.body req.caretakerId
        req.userId _
    · intro hBroker
      rw [hprim] at hBroker
      have : role0.roleName = "Broker" := by
        simpa using hBroker
      rw [this]
      exact buildPropertyData_broker_fields req.body req.caretakerId
        req.userId _
    · intro role hrole hO hB
      rw [hprim] at hrole
      have : role0.roleName = role := by simpa using hrole
      rw [this]
      exact buildPropertyData_other_fields req.body req.caretakerId role
        req.userId _ hO hB
    · exact buildPropertyData_not_both req.body req.caretakerId
        role0.roleName req.userId _
  · intro db req db2 res h pr2 hpr2
    obtain ⟨pid, old, hfind, hpid, hx⟩ := updateProperty_ok_inv db req (db2, res) h
    have hdb2 : db2 = (updateTxn db req pid old
        (truthy (getField req.body "ownerId") ||
          truthy (getField req.body "propertyId") ||
          truthy (getField req.body "brokerId"))).1 :=
      congrArg Prod.fst hx
    rw [hdb2] at hpr2
    have hpr2' : pr2 ∈ db.properties.map (fun pr =>
        if pr.1 == pid then (pid, objAssign old (updateDataOf req.body))
        else pr) := hpr2
    obtain ⟨pr, hpr, him⟩ := List.mem_map.mp hpr2'
    by_cases hc : (pr.1 == pid) = true
    · rw [if_pos hc] at him
      subst him
      refine ⟨(pid, old), List.mem_of_find?_eq_some hfind, rfl, ?_, ?_⟩
      · exact getField_objAssign_not_mem old (updateDataOf req.body) "ownerId"
          (key_not_mem_updateDataOf req.body "ownerId" (by decide) (by decide))
      · exact getField_objAssign_not_mem old (updateDataOf req.body) "brokerId"
          (key_not_mem_updateDataOf req.body "brokerId" (by decide) (by decide))
    · rw [if_neg hc] at him
      subst him
      exact ⟨pr, hpr, rfl, rfl, rfl⟩
  · intro db actorId propertyId targetUserId ip ua db2 pid h pr2 hpr2
    obtain ⟨uid, pid', old, -, hfind, hx⟩ :=
      assignProperty_ok_inv db actorId propertyId targetUserId ip ua (db2, pid) h
    have hdb2 : db2 = (assignTxn db actorId pid' old uid ip ua).1 :=
      congrArg Prod.fst hx
    rw [hdb2] at hpr2
    have hpr2' : pr2 ∈ db.properties.map (fun pr =>
        if pr.1 == pid' then (pid', objAssign old [("salesId", .vNum uid)])
        else pr) := hpr2
    obtain ⟨pr, hpr, him⟩ := List.mem_map.mp hpr2'
    by_cases hc : (pr.1 == pid') = true
    · rw [if_pos hc] at him
      subst him
      refine ⟨(pid', old), List.mem_of_find?_eq_some hfind, rfl, ?_, ?_⟩
      · exact getField_objAssign_not_mem old [("salesId", .vNum uid)] "ownerId"
          (by simp)
      · exact getField_objAssign_not_mem old [("salesId", .vNum uid)] "brokerId"
          (by simp)
    · rw [if_neg hc] at him
      subst him
      exact ⟨pr, hpr, rfl, rfl, rfl⟩

/-- Witness for `ownerBrokerExclusivity_spec` at a concrete Owner-role
create: the created row carries `ownerId = 7` and `brokerId = null`. -/
theorem ownerBrokerExclusivity_spec_witness :
    getField (((createTxn ownerDb puneReq 100 "Owner"
        none).1.properties.getLastD (0, [])).2) "ownerId" = Value.vNum 7 ∧
    getField (((createTxn ownerDb puneReq 100 "Owner"
        none).1.properties.getLastD (0, [])).2) "brokerId" = Value.vNull := by
  have hok : createProperty ownerDb puneReq 100 =
      .ok ((createTxn ownerDb puneReq 100 "Owner" none).1,
        (createTxn ownerDb puneReq 100 "Owner" none).2) := by
    rw [Prod.mk.eta]
    exact rfl
  obtain ⟨pdata, hprops, hOwn, -, -, -⟩ :=
    ownerBrokerExclusivity_spec.1 ownerDb puneReq 100
      (createTxn ownerDb puneReq 100 "Owner" none).1
      (createTxn ownerDb puneReq 100 "Owner" none).2 hok
  have hf := hOwn (by decide)
  have hlast : ((createTxn ownerDb puneReq 100 "Owner"
      none).1.properties).getLastD (0, []) = (100, pdata) := by
    rw [hprops]
    rfl
  rw [hlast]
  exact ⟨hf.1, hf.2⟩


/-- C1: the create operation is all-or-nothing — a failed request leaves
the datastore exactly as it was, and a successful one appends the root row,
its amenity links, media, connectivity and certification children, and
exactly one INSERT audit row, together; in the Pune scenario with
`amenityIds=[1,2]` where amenity 2 is inactive, the request fails with the
400 validation error and zero Property, PropertyAmenity and AuditLog rows
are persisted. -/
theorem createProperty_atomic_spec :
    ((∀ (db : PropDb) (req : CreateReq) (id : Nat) (e : AppError),
        (runCreate db req id).2 = .error e → (runCreate db req id).1 = db) ∧
     (∀ (db : PropDb) (req : CreateReq) (id : Nat) (db2 : PropDb)
        (r : CreateResult), createProperty db req id = .ok (db2, r) →
        (∃ pdata, db2.properties = db.properties ++ [(id, pdata)]) ∧
        db2.propertyAmenities = db.propertyAmenities ++
          (match req.amenityIds with
           | some ids => ids.map (fun a => (id, a))
           | none => []) ∧
        db2.propertyMedia = db.propertyMedia ++ mediaRowsFor id req.files ∧
        db2.propertyConnectivity = db.propertyConnectivity ++
          (match req.connectivityDetails with
           | some cds => connRowsFor id cds
           | none => []) ∧
        db2.propertyCertifications = db.propertyCertifications ++
          certRowsFor id req.certifications ∧
        (∃ a, db2.auditLogs = db.auditLogs ++ [a] ∧ a.operation = "INSERT" ∧
          a.entityType = "Property" ∧ a.recordId = id)) ∧
     (runCreate puneDb puneReq 100 =
        (puneDb, .error ⟨"One or more invalid amenity IDs provided", 400⟩) ∧
      puneDb.properties = [] ∧ puneDb.propertyAmenities = [] ∧
      puneDb.auditLogs = [])) := by
  refine ⟨?_, ?_, rfl, rfl, rfl, rfl⟩
  · intro db req id e h
    unfold runCreate at h ⊢
    cases hc : createProperty db req id with
    | ok x =>
      rw [hc] at h
      exact absurd h (by simp)
    | error e2 => rfl
  · intro db req id db2 r h
    obtain ⟨role0, rest, -, hx⟩ := createProperty_ok_inv db req id (db2, r) h
    have hdb2 : db2 = (createTxn db req id role0.roleName
        (pickLeastLoaded (activePropCount db) (salesUsersOf db))).1 :=
      congrArg Prod.fst hx
    subst hdb2
    refine ⟨⟨buildPropertyData req.body req.caretakerId role0.roleName
      req.userId (pickLeastLoaded (activePropCount db) (salesUsersOf db)),
      rfl⟩, rfl, rfl, rfl, rfl, ?_⟩
    exact ⟨_, rfl, rfl, rfl, rfl⟩

/-- Witness for `createProperty_atomic_spec`: the failed Pune request
leaves the datastore untouched, and the same request with both amenities
active appends exactly one property row, two amenity links and one audit
row. -/
theorem createProperty_atomic_spec_witness :
    (runCreate puneDb puneReq 100).1 = puneDb ∧
    (createTxn ownerDb puneReq 100 "Owner" none).1.properties.length = 1 ∧
    (createTxn ownerDb puneReq 100 "Owner" none).1.propertyAmenities.length = 2 ∧
    (createTxn ownerDb puneReq 100 "Owner" none).1.auditLogs.length = 1 := by
  refine ⟨?_, ?_⟩
  · exact createProperty_atomic_spec.1 puneDb puneReq 100
      ⟨"One or more invalid amenity IDs provided", 400⟩
      (congrArg Prod.snd createProperty_atomic_spec.2.2.1)
  · obtain ⟨⟨pdata, hprops⟩, hlinks, -, -, -, ⟨a, haudit, -, -, -⟩⟩ :=
      createProperty_atomic_spec.2.1 ownerDb puneReq 100
        (createTxn ownerDb puneReq 100 "Owner" none).1
        (createTxn ownerDb puneReq 100 "Owner" none).2 rfl
    refine ⟨?_, ?_, ?_⟩
    · rw [hprops]; rfl
    · rw [hlinks]; rfl
    · rw [haudit]; rfl

/-- C5: the balancer selects the holder at the first position achieving the
strictly smallest active-property count (every earlier holder counts
strictly more, every later one at least as much, and the selection is a
global minimum); on counts `[3,1,1,4]` the holder at index 1 is selected,
not index 2; with no Sales-role holder the selection is empty and a
successful creation stores the property with `salesId` unset. -/
theorem assignmentBalancer_spec :
    ((∀ (counts : Nat → Nat) (ids : List Nat) (r : Nat),
        pickLeastLoaded counts ids = some r →
        ∃ pre post, ids = pre ++ r :: post ∧
          (∀ a ∈ pre, counts r < counts a) ∧
          (∀ a ∈ post, counts r ≤ counts a) ∧
          (∀ a ∈ ids, counts r ≤ counts a)) ∧
     (pickLeastLoaded (fun i => [3, 1, 1, 4].getD i 0) [0, 1, 2, 3] =
        some 1) ∧
     (∀ counts : Nat → Nat, pickLeastLoaded counts ([] : List Nat) = none) ∧
     (∀ (db : PropDb) (req : CreateReq) (id : Nat) (db2 : PropDb)
        (r : CreateResult), createProperty db req id = .ok (db2, r) →
        salesUsersOf db = [] →
        ∃ pdata, db2.properties = db.properties ++ [(id, pdata)] ∧
          getField pdata "salesId" = .vUndefined)) := by
  refine ⟨?_, rfl, fun _ => rfl, ?_⟩
  · intro counts ids r h
    obtain ⟨pre, post, hdec, hpre, hpost⟩ :=
      pickLeastLoaded_first_min counts ids r h
    refine ⟨pre, post, hdec, hpre, hpost, ?_⟩
    intro a ha
    rw [hdec] at ha
    rcases List.mem_append.mp ha with hl | hr
    · exact le_of_lt (hpre a hl)
    · rcases List.mem_cons.mp hr with rfl | hr
      · exact le_refl _
      · exact hpost a hr
  · intro db req id db2 r h hsales
    obtain ⟨role0, rest, -, hx⟩ := createProperty_ok_inv db req id (db2, r) h
    have hdb2 : db2 = (createTxn db req id role0.roleName
        (pickLeastLoaded (activePropCount db) (salesUsersOf db))).1 :=
      congrArg Prod.fst hx
    rw [hsales] at hdb2
    subst hdb2
    refine ⟨buildPropertyData req.body req.caretakerId role0.roleName
      req.userId (pickLeastLoaded (activePropCount db) []), ?_, ?_⟩
    · rfl
    · rw [show pickLeastLoaded (activePropCount db) ([] : List Nat) = none
        from rfl]
      exact (buildPropertyData_salesId req.body req.caretakerId
        role0.roleName req.userId).2

/-- Witness for `assignmentBalancer_spec`: the `[3,1,1,4]` pool selects the
index-1 holder, and the no-Sales-holder create stores `salesId` unset. -/
theorem assignmentBalancer_spec_witness :
    pickLeastLoaded (fun i => [3, 1, 1, 4].getD i 0) [0, 1, 2, 3] = some 1 ∧
    ((runCreate adminDb adminReq 100).1.properties.map (fun pr =>
      getField pr.2 "salesId")).getLastD Value.vNull = Value.vUndefined := by
  refine ⟨assignmentBalancer_spec.2.1, ?_⟩
  have hok : createProperty adminDb adminReq 100 =
      .ok ((createTxn adminDb adminReq 100 "Admin" none).1,
        (createTxn adminDb adminReq 100 "Admin" none).2) := by
    rw [Prod.mk.eta]
    exact rfl
  obtain ⟨pdata, hprops, hsales⟩ :=
    assignmentBalancer_spec.2.2.2 adminDb adminReq 100
      (createTxn adminDb adminReq 100 "Admin" none).1
      (createTxn adminDb adminReq 100 "Admin" none).2 hok rfl
  have hrun : (runCreate adminDb adminReq 100).1 =
      (createTxn adminDb adminReq 100 "Admin" none).1 := by
    unfold runCreate
    rw [hok]
  rw [hrun, hprops]
  simpa using hsales

/-- A stored property row for the update scenario: active, owned by user 7. -/
def c7Row : Obj :=
  [("isActive", .vBool true), ("ownerId", .vNum 7), ("brokerId", .vNull),
   ("city", .vStr "Pune")]

/-- Store holding that single property row. -/
def c7Db : PropDb :=
  { users := [⟨7, true⟩], roles := [⟨1, "Owner", true⟩],
    userRoles := [(7, 1)], amenities := [], caretakers := [],
    properties := [(50, c7Row)], propertyAmenities := [],
    propertyMedia := [], propertyConnectivity := [],
    propertyCertifications := [], auditLogs := [] }

/-- An update request that supplies a new city together with an attempt to
overwrite the protected `ownerId`. -/
def c7Req : UpdateReq :=
  { userId := 7, userRole := "Owner", propertyId := 50,
    body := [("city", .vStr "Mumbai"), ("ownerId", .vNum 999)],
    amenityIds := none, files := [], ip := .vNull, userAgent := .vNull }

/-- C7: on every successful update the patch actually applied is the body
minus the destructured protected keys, so the persisted row keeps the old
`ownerId`, `brokerId` and `propertyId` for every request (hence any two
requests differing only there leave those fields identical), the remaining
supplied fields are applied, the request succeeds, and supplying a truthy
protected value only raises the warning flag. -/
theorem updateProtectedFields_spec :
    ((∀ (db : PropDb) (req : UpdateReq) (db2 : PropDb) (res : UpdateResult),
        updateProperty db req = .ok (db2, res) →
        ∃ oldRecord,
          db.properties.find? (updateScope req) =
            some (req.propertyId, oldRecord) ∧
          db2.properties = db.properties.map (fun pr =>
            if pr.1 == req.propertyId then
              (req.propertyId, objAssign oldRecord (updateDataOf req.body))
            else pr) ∧
          getField (objAssign oldRecord (updateDataOf req.body)) "ownerId" =
            getField oldRecord "ownerId" ∧
          getField (objAssign oldRecord (updateDataOf req.body)) "brokerId" =
            getField oldRecord "brokerId" ∧
          getField (objAssign oldRecord (updateDataOf req.body)) "propertyId" =
            getField oldRecord "propertyId" ∧
          ((req.body.map Prod.fst).Nodup → ∀ k v,
            (k, v) ∈ updateDataOf req.body →
            getField (objAssign oldRecord (updateDataOf req.body)) k = v) ∧
          res.warnedProtected = (truthy (getField req.body "ownerId") ||
            truthy (getField req.body "propertyId") ||
            truthy (getField req.body "brokerId"))) ∧
     (∀ (db : PropDb) (req1 req2 : UpdateReq) (db2 db3 : PropDb)
        (res2 res3 : UpdateResult),
        req1.userId = req2.userId → req1.userRole = req2.userRole →
        req1.propertyId = req2.propertyId →
        updateProperty db req1 = .ok (db2, res2) →
        updateProperty db req2 = .ok (db3, res3) →
        ∀ pr2 ∈ db2.properties, ∀ pr3 ∈ db3.properties,
          pr2.1 = req1.propertyId → pr3.1 = req1.propertyId →
          getField pr2.2 "ownerId" = getField pr3.2 "ownerId" ∧
          getField pr2.2 "brokerId" = getField pr3.2 "brokerId")) := by
  have hmain : ∀ (db : PropDb) (req : UpdateReq) (db2 : PropDb)
      (res : UpdateResult), updateProperty db req = .ok (db2, res) →
      ∃ oldRecord,
        db.properties.find? (updateScope req) =
          some (req.propertyId, oldRecord) ∧
        db2.properties = db.properties.map (fun pr =>
          if pr.1 == req.propertyId then
            (req.propertyId, objAssign oldRecord (updateDataOf req.body))
          else pr) ∧
        getField (objAssign oldRecord (updateDataOf req.body)) "ownerId" =
          getField oldRecord "ownerId" ∧
        getField (objAssign oldRecord (updateDataOf req.body)) "brokerId" =
          getField oldRecord "brokerId" ∧
        getField (objAssign oldRecord (updateDataOf req.body)) "propertyId" =
          getField oldRecord "propertyId" ∧
        ((req.body.map Prod.fst).Nodup → ∀ k v,
          (k, v) ∈ updateDataOf req.body →
          getField (objAssign oldRecord (updateDataOf req.body)) k = v) ∧
        res.warnedProtected = (truthy (getField req.body "ownerId") ||
          truthy (getField req.body "propertyId") ||
          truthy (getField req.body "brokerId")) := by
    intro db req db2 res h
    obtain ⟨pid, old, hfind, hpid, hx⟩ :=
      updateProperty_ok_inv db req (db2, res) h
    subst hpid
    refine ⟨old, hfind, ?_, ?_, ?_, ?_, ?_, ?_⟩
    · exact congrArg (fun y => y.1.properties) hx
    · exact getField_objAssign_not_mem old (updateDataOf req.body) "ownerId"
        (key_not_mem_updateDataOf req.body "ownerId" (by decide) (by decide))
    · exact getField_objAssign_not_mem old (updateDataOf req.body) "brokerId"
        (key_not_mem_updateDataOf req.body "brokerId" (by decide) (by decide))
    · exact getField_objAssign_not_mem old (updateDataOf req.body)
        "propertyId"
        (key_not_mem_updateDataOf req.body "propertyId" (by decide) (by decide))
    · intro hnd k v hkv
      exact getField_objAssign_mem old (updateDataOf req.body) k v
        (updateDataOf_keys_nodup req.body hnd) hkv
    · exact congrArg (fun y => y.2.warnedProtected) hx
  refine ⟨hmain, ?_⟩
  intro db req1 req2 db2 db3 res2 res3 hu hr hp h1 h2 pr2 hpr2 pr3 hpr3 hk2 hk3
  obtain ⟨old1, hfind1, hprops1, hown1, hbrok1, -, -, -⟩ :=
    hmain db req1 db2 res2 h1
  obtain ⟨old2, hfind2, hprops2, hown2, hbrok2, -, -, -⟩ :=
    hmain db req2 db3 res3 h2
  have hscope : updateScope req1 = updateScope req2 := by
    unfold updateScope
    rw [hu, hr, hp]
  have holds : old1 = old2 := by
    rw [hscope, hfind2] at hfind1
    have := Option.some.injEq .. ▸ hfind1
    exact (Prod.mk.injEq .. ▸ this.symm).2
  rw [hprops1] at hpr2
  rw [hprops2] at hpr3
  obtain ⟨pra, hpra, hima⟩ := List.mem_map.mp hpr2
  obtain ⟨prb, hprb, himb⟩ := List.mem_map.mp hpr3
  have hka : (pra.1 == req1.propertyId) = true := by
    by_cases hc : (pra.1 == req1.propertyId) = true
    · exact hc
    · rw [if_neg hc] at hima
      subst hima
      exact absurd (beq_iff_eq.mpr hk2) hc
  have hkb : (prb.1 == req2.propertyId) = true := by
    by_cases hc : (prb.1 == req2.propertyId) = true
    · exact hc
    · rw [if_neg hc] at himb
      subst himb
      rw [← hp] at hc
      exact absurd (beq_iff_eq.mpr hk3) hc
  rw [if_pos hka] at hima
  rw [if_pos hkb] at himb
  subst hima
  subst himb
  constructor
  · rw [hown1, hown2, holds]
  · rw [hbrok1, hbrok2, holds]

/-- Witness for `updateProtectedFields_spec`: in the concrete scenario the
update succeeds, the persisted row keeps `ownerId = 7` despite the body's
`ownerId = 999`, the supplied `city` is applied, and the warning flag is
raised. -/
theorem updateProtectedFields_spec_witness :
    getField (objAssign c7Row (updateDataOf c7Req.body)) "ownerId" =
      getField c7Row "ownerId" ∧
    getField (objAssign c7Row (updateDataOf c7Req.body)) "city" =
      Value.vStr "Mumbai" ∧
    (updateProperty c7Db c7Req).map (fun x => x.2.warnedProtected) =
      .ok true := by
  have hok : updateProperty c7Db c7Req =
      .ok ((updateTxn c7Db c7Req 50 c7Row true).1,
        (updateTxn c7Db c7Req 50 c7Row true).2) := by
    rw [Prod.mk.eta]
    exact rfl
  obtain ⟨old, hfind, -, hown, -, -, happl, hwarn⟩ :=
    updateProtectedFields_spec.1 c7Db c7Req
      (updateTxn c7Db c7Req 50 c7Row true).1
      (updateTxn c7Db c7Req 50 c7Row true).2 hok
  have holdr : old = c7Row := by
    have hconc : c7Db.properties.find? (updateScope c7Req) =
        some (50, c7Row) := rfl
    rw [hconc] at hfind
    have := Option.some.injEq .. ▸ hfind
    exact (Prod.mk.injEq .. ▸ this).2.symm
  subst holdr
  refine ⟨hown, ?_, ?_⟩
  · exact happl (by decide) "city" (Value.vStr "Mumbai") (by decide)
  · rw [hok]
    simp only [Except.map]
    rw [hwarn]
    rfl

end PreLease
